import Mathlib

/-!
Verification of the PEN-MATCH resolution pipeline.

This file gives a shallow embedding, in Lean 4, of the core of the
PEN-MATCH-API-V2 system: the field-similarity scorers and fuzzy resolver
(`app/azure_search/azure_search_fuzzy.py`), the exact resolver and match
classifier (`app/azure_search/azure_search_query.py`), the query
normalizer (`app/api/main.py`), and the arbitration workflow
(`app/pen_agent/nodes.py`, `pen_graph.py`, `schemas.py`).

Modelling conventions:
- Python strings are Lean `String`; optional / possibly-missing dictionary
  entries are `Option String` (a key that is absent and a key bound to
  `None` are collapsed, which matches every read site, all of which use
  `dict.get`).
- Python floats are modelled as exact rationals `ℚ`; every score in the
  source is a small sum of the literals 0.1..1.0, where this is faithful.
- External services (the Azure index for vector queries, the embedding
  model, the decision-assistant LLM) are parameters of the functions that
  call them; filter-only index queries are given their documented
  semantics over an explicit list of records.
- Python exceptions that the source does not catch are modelled with
  `Except String`; code that cannot raise is a plain function.
- Wall-clock diagnostic fields (`total_time_seconds` and friends) are not
  modelled.
-/

namespace PenMatch

/-! Python string primitives.  The corresponding `String` library
functions are implemented by position-based loops that the kernel cannot
evaluate, so the primitives below work on the character list instead;
each is extensionally the operation the source uses. -/

/-- Python `str.strip()`: remove leading and trailing whitespace. -/
def pyStrip (s : String) : String :=
  String.mk (((s.data.dropWhile Char.isWhitespace).reverse.dropWhile
    Char.isWhitespace).reverse)

/-- Python `str.upper()`. -/
def pyUpper (s : String) : String := String.mk (s.data.map Char.toUpper)

/-- Python `s.replace(" ", "")`. -/
def removeSpaces (s : String) : String :=
  String.mk (s.data.filter (fun c => !(c == ' ')))

/-- Python `s.lstrip("0")`. -/
def lstripZeros (s : String) : String :=
  String.mk (s.data.dropWhile (fun c => c == '0'))

/-- Python `s.isdigit()` for a whole string (also used for the all-digit
field test of `strptime`). -/
def allDigits (s : String) : Bool := !s.data.isEmpty && s.data.all Char.isDigit

/-- Python `int(s)` on an all-digit string. -/
def digitsToNat (s : String) : Nat :=
  s.data.foldl (fun n c => n * 10 + (c.toNat - 48)) 0

/-- Python `s.split("-")` / `s.splitOn "-"`. -/
def splitOnDashAux : List Char → List Char → List String
  | [], acc => [String.mk acc.reverse]
  | c :: cs, acc =>
    if c == '-' then String.mk acc.reverse :: splitOnDashAux cs []
    else splitOnDashAux cs (c :: acc)

/-- Split a string at every dash. -/
def splitOnDash (s : String) : List String := splitOnDashAux s.data []

/-- Python `"-" in s`. -/
def containsDash (s : String) : Bool := s.data.any (fun c => c == '-')

/-- Python truthiness of an optional string (`if v:`). -/
def truthy : Option String → Bool
  | none => false
  | some s => !s.isEmpty

/-- Python `a or b` for an optional string falling back to a string
(`query_data.get(k) or dflt`). -/
def pyOr (a : Option String) (dflt : String) : String :=
  match a with
  | none => dflt
  | some s => if s.isEmpty then dflt else s

/-- Python `str.zfill`: left-pad with zeros to the given width. -/
def zfill (w : Nat) (s : String) : String :=
  if s.length ≥ w then s else String.mk (List.replicate (w - s.length) '0') ++ s

/-- Left-pad a numeral to two digits (`strftime` `%m` / `%d`). -/
def pad2 (n : Nat) : String := zfill 2 (toString n)

/-- Left-pad a numeral to four digits (`strftime` `%Y`, rendered
zero-padded, the canonical rendering of the year). -/
def pad4 (n : Nat) : String := zfill 4 (toString n)

/-- Render a parsed date as `YYYY-MM-DD` (`dt.strftime("%Y-%m-%d")`). -/
def fmtDate (y m d : Nat) : String := pad4 y ++ "-" ++ pad2 m ++ "-" ++ pad2 d

/-! ## Field similarity scorers (`azure_search_fuzzy.py`, §4.3) -/

/-- Embeds `FuzzySearchService._postal_similarity`. -/
def postalSimilarity (queryPostal candidatePostal : String) : ℚ :=
  if queryPostal.isEmpty || candidatePostal.isEmpty then 0
  else
    let q := pyUpper (removeSpaces queryPostal)
    let c := pyUpper (removeSpaces candidatePostal)
    if q == c then 1
    else if q.length ≥ 3 && c.length ≥ 3 && q.take 3 == c.take 3 then 7/10
    else if q.length ≥ 2 && c.length ≥ 2 && q.take 2 == c.take 2 then 1/2
    else 0

/-- Embeds `FuzzySearchService._mincode_similarity`. -/
def mincodeSimilarity (queryMincode candidateMincode : String) : ℚ :=
  if queryMincode.isEmpty || candidateMincode.isEmpty then 0
  else
    let qn := lstripZeros (pyStrip queryMincode)
    let cn := lstripZeros (pyStrip candidateMincode)
    if qn == cn then 1
    else
      let maxPrefix := min qn.length cn.length
      if maxPrefix ≥ 4 && qn.take 4 == cn.take 4 then 4/5
      else if maxPrefix ≥ 3 && qn.take 3 == cn.take 3 then 3/5
      else 0

/-- Embeds `FuzzySearchService._sex_similarity`. -/
def sexSimilarity (querySex candidateSex : String) : ℚ :=
  if querySex.isEmpty || candidateSex.isEmpty then 0
  else if pyUpper querySex == pyUpper candidateSex then 1 else 0

/-- Embeds `FuzzySearchService._dob_similarity`.  The candidate value may
be missing (`cand.get("dob")` is `None`); a candidate `datetime` and a
candidate string both render to at most the first ten characters. -/
def dobSimilarity (queryDob : String) (candidateDob : Option String) : ℚ :=
  match candidateDob with
  | none => 0
  | some c =>
    if queryDob.isEmpty || c.isEmpty then 0
    else
      let candFull := c.take 10
      if queryDob == candFull then 1
      else if queryDob.take 7 == candFull.take 7 then 7/10
      else if queryDob.take 4 == candFull.take 4 then 2/5
      else 0

/-! ## Calendar dates and `strptime` models

The source validates dates through CPython's `datetime.strptime`.  We model
the proleptic-Gregorian validity check exactly, and the two format strings
`%Y-%m-%d` and `%Y%m%d` for their standard zero-padded and short-field
forms (nonstandard-width inputs are treated as unparseable). -/

/-- Gregorian leap-year rule. -/
def isLeap (y : Nat) : Bool := (y % 4 == 0 && y % 100 != 0) || y % 400 == 0

/-- Number of days of a month. -/
def daysInMonth (y m : Nat) : Nat :=
  if m == 2 then (if isLeap y then 29 else 28)
  else if m == 4 || m == 6 || m == 9 || m == 11 then 30
  else 31

/-- Validity of a calendar date, as `datetime(y, m, d)` accepts it. -/
def validDate (y m d : Nat) : Bool :=
  1 ≤ y && y ≤ 9999 && 1 ≤ m && m ≤ 12 && 1 ≤ d && d ≤ daysInMonth y m

/-- Model of `datetime.strptime(s, "%Y-%m-%d")`: three dash-separated
all-digit fields, year of up to four digits, month and day of up to two,
denoting a valid date. -/
def strptimeDash (s : String) : Option (Nat × Nat × Nat) :=
  match splitOnDash s with
  | [ys, ms, ds] =>
    if 1 ≤ ys.length && ys.length ≤ 4 && 1 ≤ ms.length && ms.length ≤ 2
        && 1 ≤ ds.length && ds.length ≤ 2
        && allDigits ys && allDigits ms && allDigits ds then
      let y := digitsToNat ys
      let m := digitsToNat ms
      let d := digitsToNat ds
      if validDate y m d then some (y, m, d) else none
    else none
  | _ => none

/-- Model of `datetime.strptime(s, "%Y%m%d")` on its standard form: eight
digits split 4-2-2, denoting a valid date. -/
def strptimeCompact (s : String) : Option (Nat × Nat × Nat) :=
  if s.length == 8 && allDigits s then
    let y := digitsToNat (s.take 4)
    let m := digitsToNat ((s.drop 4).take 2)
    let d := digitsToNat (s.drop 6)
    if validDate y m d then some (y, m, d) else none
  else none

/-! ## Query normalizer (`app/api/main.py`) -/

/-- Embeds `normalize_dob` of `app/api/main.py`: accept `YYYYMMDD` and
`YYYY-MM-DD`, render canonically; on any parse failure fall through and
return the stripped input. -/
def normalize_dob : Option String → Option String
  | none => none
  | some dob0 =>
    if dob0.isEmpty then none
    else
      let dob := pyStrip dob0
      if dob.length == 8 && allDigits dob then
        match strptimeCompact dob with
        | some (y, m, d) => some (fmtDate y m d)
        | none => some dob
      else if dob.length == 10 && dob.data[4]? == some '-' && dob.data[7]? == some '-' then
        match strptimeDash dob with
        | some (y, m, d) => some (fmtDate y m d)
        | none => some dob
      else some dob

/-- The validated request model `StudentQuery` of `app/api/main.py` after
`model_dump`: two required names, the rest optional. -/
structure StudentQueryIn where
  legalFirstName : String
  legalLastName : String
  legalMiddleNames : Option String := none
  dob : Option String := none
  localID : Option String := none
  sexCode : Option String := none
  postalCode : Option String := none
  mincode : Option String := none
  pen : Option String := none
  gradeCode : Option String := none
deriving DecidableEq

/-- A canonical query dictionary, as consumed by
`StudentSearchService.search_students` and `FuzzySearchService`.  Besides
the canonical keys it carries the legacy keys that the fuzzy path still
reads (`givenName`, `surname`, `middleName`, `birthDate`, `postal`,
`sex`); `build_query_dict` never populates those. -/
structure Query where
  pen : Option String := none
  legalFirstName : Option String := none
  legalMiddleNames : Option String := none
  legalLastName : Option String := none
  dob : Option String := none
  sexCode : Option String := none
  postalCode : Option String := none
  mincode : Option String := none
  gradeCode : Option String := none
  localID : Option String := none
  givenName : Option String := none
  surname : Option String := none
  middleName : Option String := none
  birthDate : Option String := none
  postal : Option String := none
  sex : Option String := none
deriving DecidableEq

/-- Drop a value that is the empty string (`if v in (None, "", []):
continue`). -/
def keepStr (s : String) : Option String := if s.isEmpty then none else some s

/-- Drop a missing or empty value. -/
def keepOpt : Option String → Option String
  | none => none
  | some s => keepStr s

/-- Embeds `build_query_dict` of `app/api/main.py`: drop `None`/empty
values, route `dob` through `normalize_dob` and drop it when the
normalization yields nothing. -/
def build_query_dict (q : StudentQueryIn) : Query :=
  { legalFirstName := keepStr q.legalFirstName
    legalLastName := keepStr q.legalLastName
    legalMiddleNames := keepOpt q.legalMiddleNames
    dob :=
      match keepOpt q.dob with
      | none => none
      | some s =>
        match normalize_dob (some s) with
        | none => none
        | some v => keepStr v
    localID := keepOpt q.localID
    sexCode := keepOpt q.sexCode
    postalCode := keepOpt q.postalCode
    mincode := keepOpt q.mincode
    pen := keepOpt q.pen
    gradeCode := keepOpt q.gradeCode }

/-! ## Index records and search candidates -/

/-- A student document as the index returns it under the service's
`select` field list (`_select_fields`); any field may be null. -/
structure StudentRecord where
  student_id : Option String := none
  pen : Option String := none
  legalFirstName : Option String := none
  legalMiddleNames : Option String := none
  legalLastName : Option String := none
  dob : Option String := none
  sexCode : Option String := none
  postalCode : Option String := none
  mincode : Option String := none
  gradeCode : Option String := none
  localID : Option String := none
deriving DecidableEq

/-- A search-result row: a record plus the scoring fields that the fuzzy
path attaches (`@search.score` is `searchScore`; the rest are written by
`_rank_with_light_scoring`).  Rows of the exact path leave them unset. -/
structure Candidate where
  doc : StudentRecord
  searchScore : Option ℚ := none
  base_search_score : Option ℚ := none
  dob_sim : Option ℚ := none
  mincode_sim : Option ℚ := none
  postal_sim : Option ℚ := none
  sex_sim : Option ℚ := none
  final_score : Option ℚ := none
  search_method : Option String := none
deriving DecidableEq

/-- View an index record as a bare search-result row. -/
def recToCand (r : StudentRecord) : Candidate := { doc := r }

/-! ## Exact resolver (`azure_search_query.py`) -/

/-- One field comparison of `_count_matching_fields`: the record value is
present and equals the query value after stripping and upper-casing. -/
def fieldMatches (qv : String) (rv : Option String) : Bool :=
  match rv with
  | none => false
  | some r => pyUpper (pyStrip r) == pyUpper (pyStrip qv)

/-- The `compare_fields` pairs of `_count_matching_fields`, in source
order (the prior identifier `pen` itself is not compared). -/
def compareFieldPairs (q : Query) (r : StudentRecord) :
    List (Option String × Option String) :=
  [(q.legalFirstName, r.legalFirstName),
   (q.legalMiddleNames, r.legalMiddleNames),
   (q.legalLastName, r.legalLastName),
   (q.dob, r.dob),
   (q.sexCode, r.sexCode),
   (q.postalCode, r.postalCode),
   (q.mincode, r.mincode),
   (q.gradeCode, r.gradeCode),
   (q.localID, r.localID)]

/-- Embeds `_count_matching_fields`: `(match_count, total_fields)` over
the provided (non-null, non-empty) query fields. -/
def countMatchingFields (q : Query) (r : StudentRecord) : Nat × Nat :=
  (compareFieldPairs q r).foldl
    (fun acc p =>
      match p.1 with
      | none => acc
      | some qv =>
        if qv.isEmpty then acc
        else ((if fieldMatches qv p.2 then acc.1 + 1 else acc.1), acc.2 + 1))
    (0, 0)

/-- The equality conjunction of `_hard_filter_search` as a predicate on
records: one `eq` clause per provided field, combined with `and`.  An
Azure `eq` filter on a string field is an exact, case-sensitive
comparison, false on a null field. -/
def hardPred (q : Query) (r : StudentRecord) : Bool :=
  (!truthy q.pen || r.pen == q.pen) &&
  (!truthy q.legalFirstName || r.legalFirstName == q.legalFirstName) &&
  (!truthy q.legalLastName || r.legalLastName == q.legalLastName) &&
  (!truthy q.legalMiddleNames || r.legalMiddleNames == q.legalMiddleNames) &&
  (!truthy q.dob || r.dob == q.dob) &&
  (!truthy q.postalCode || r.postalCode == q.postalCode) &&
  (!truthy q.mincode || r.mincode == q.mincode) &&
  (!truthy q.gradeCode || r.gradeCode == q.gradeCode) &&
  (!truthy q.localID || r.localID == q.localID)

/-- Whether `_hard_filter_search` builds at least one filter clause. -/
def hasHardFilter (q : Query) : Bool :=
  truthy q.pen || truthy q.legalFirstName || truthy q.legalLastName ||
  truthy q.legalMiddleNames || truthy q.dob || truthy q.postalCode ||
  truthy q.mincode || truthy q.gradeCode || truthy q.localID

/-- Python truthiness of the query dictionary (`if query_no_pen:`): at
least one key is present. -/
def queryHasAnyKey (q : Query) : Bool :=
  q.pen.isSome || q.legalFirstName.isSome || q.legalMiddleNames.isSome ||
  q.legalLastName.isSome || q.dob.isSome || q.sexCode.isSome ||
  q.postalCode.isSome || q.mincode.isSome || q.gradeCode.isSome ||
  q.localID.isSome || q.givenName.isSome || q.surname.isSome ||
  q.middleName.isSome || q.birthDate.isSome || q.postal.isSome || q.sex.isSome

/-- Embeds `_hard_filter_search` over an explicit index: a filter-only
query returns the matching documents in index order, capped by `top=41`;
the service keeps at most 40 rows and reports the row count. -/
def hard_filter_search (idx : List StudentRecord) (q : Query) :
    List StudentRecord × Nat :=
  if hasHardFilter q then
    let resultsList := (idx.filter (hardPred q)).take 41
    (resultsList.take 40, resultsList.length)
  else ([], 0)

/-- Embeds `_search_by_pen`: a filter-only lookup `pen eq <pen>` with
`top=2`. -/
def search_by_pen (idx : List StudentRecord) (pen : String) :
    List StudentRecord × Nat :=
  let resultsList := (idx.filter (fun r => r.pen == some pen)).take 2
  (resultsList, resultsList.length)

/-- Strip the `pen` key from a query dictionary
(`{k: v for k, v in query_data.items() if k != "pen"}`). -/
def removePen (q : Query) : Query := { q with pen := none }

/-- The diagnostic `methodology` dictionary of the fuzzy service (the
wall-clock entry is not modelled). -/
structure Methodology where
  reason : Option String := none
  search_method : Option String := none
  embedding_generated : Option Bool := none
  filters_run : Option (List String) := none
  vector_top_k : Option Nat := none
  candidates_before_ranking : Option Nat := none
  candidates_returned : Option Nat := none
deriving DecidableEq

/-- The dictionary returned by `soft_fuzzy_search`. -/
structure FuzzyResult where
  results : List Candidate := []
  count : Nat := 0
  methodology : Methodology := {}
deriving DecidableEq

/-- The dictionary returned by `search_students`. -/
structure SearchResult where
  status : String := "success"
  pen_status : String
  search_type : String
  message : Option String := none
  results : List Candidate := []
  count : Nat := 0
  methodology : Option Methodology := none
deriving DecidableEq

/-- The demographic ("Case 2" / "Case 3") part of `search_students`: hard
filter classification, with fallback to the fuzzy service.  The fuzzy
service is a parameter; an exception it raises propagates, since
`search_students` installs no handler around it. -/
def demographicSearch (fuzzy : Query → Except String FuzzyResult)
    (idx : List StudentRecord) (qnp : Query) : Except String SearchResult :=
  let hard := if queryHasAnyKey qnp then hard_filter_search idx qnp else ([], 0)
  let countExact := hard.2
  if countExact > 40 then
    .ok { pen_status := "C0", search_type := "exact_match",
          message := some "Over 40 candidates found, please provide more specific information.",
          results := [], count := countExact }
  else if countExact == 1 then
    .ok { pen_status := "D1", search_type := "exact_match",
          results := hard.1.map recToCand, count := countExact }
  else if 1 < countExact && countExact ≤ 40 then
    .ok { pen_status := "CM", search_type := "exact_match",
          results := hard.1.map recToCand, count := countExact }
  else
    match fuzzy qnp with
    | .error e => .error e
    | .ok fz =>
      if fz.count == 0 then
        .ok { pen_status := "C0", search_type := "fuzzy_match",
              results := [], count := 0, methodology := some fz.methodology }
      else
        .ok { pen_status := "CM", search_type := "fuzzy_match",
              results := fz.results, count := fz.count,
              methodology := some fz.methodology }

/-- Embeds `StudentSearchService.search_students`: the PEN-anchored
lookup with its field-agreement classification (AA / BM / F1), falling
back to the demographic path when no PEN is provided or the PEN is
unknown. -/
def search_students (fuzzy : Query → Except String FuzzyResult)
    (idx : List StudentRecord) (q : Query) : Except String SearchResult :=
  if truthy q.pen then
    match search_by_pen idx (pyOr q.pen "") with
    | ([], _) => demographicSearch fuzzy idx (removePen q)
    | (record :: rest, cnt) =>
      let mt := countMatchingFields q record
      let penStatus :=
        if mt.2 == 0 || mt.1 == mt.2 then "AA"
        else if mt.1 ≥ 2 then "BM"
        else "F1"
      .ok { pen_status := penStatus, search_type := "pen_lookup",
            results := (record :: rest).map recToCand, count := cnt }
  else demographicSearch fuzzy idx q

/-! ## Fuzzy resolver (`azure_search_fuzzy.py`) -/

/-- Embeds `_escape_filter_str`: double single quotes for OData
(`v.replace("'", "''")`). -/
def escapeFilterStr (v : String) : String :=
  String.mk (v.data.flatMap
    (fun c => if c == Char.ofNat 39 then [Char.ofNat 39, Char.ofNat 39] else [c]))

/-- Embeds `_normalize_query_dob`: normalize a query date of birth to
`YYYY-MM-DD`, or to the empty string when it does not parse. -/
def normalize_query_dob (dobStr : String) : String :=
  let s := pyStrip dobStr
  if s.isEmpty then ""
  else
    match (if containsDash s then strptimeDash s else strptimeCompact s) with
    | some (y, m, d) => fmtDate y m d
    | none => ""

/-- Embeds `_build_dob_month_range_filter`: the whole-month half-open
range `[YYYY-MM-01, YYYY-MM-32)`. -/
def build_dob_month_range_filter (qDob : String) : Option String :=
  if qDob.isEmpty then none
  else
    let dobPfx := qDob.take 7
    some ("dob ge \x27" ++ escapeFilterStr (dobPfx ++ "-01") ++
          "\x27 and dob lt \x27" ++ escapeFilterStr (dobPfx ++ "-32") ++ "\x27")

/-- Embeds `_build_mincode_prefix_range_filter`: a numeric-prefix range
over the longest usable prefix among 6, 4, 3 digits, degrading to an
open-ended `ge` filter when the prefix is not numeric. -/
def build_mincode_prefix_range_filter (qMincode0 : String) : Option String :=
  let qMincode := pyStrip qMincode0
  if qMincode.isEmpty then none
  else
    let prefixLen :=
      if qMincode.length ≥ 6 then 6
      else if qMincode.length ≥ 4 then 4
      else if qMincode.length ≥ 3 then 3
      else 0
    if prefixLen == 0 then none
    else
      let pfx := qMincode.take prefixLen
      if !allDigits pfx then
        some ("mincode ge \x27" ++ escapeFilterStr pfx ++ "\x27")
      else
        let prefixHigh := zfill prefixLen (toString (digitsToNat pfx + 1))
        some ("mincode ge \x27" ++ escapeFilterStr pfx ++
              "\x27 and mincode lt \x27" ++ escapeFilterStr prefixHigh ++ "\x27")

/-- Embeds `_build_postal_fsa_range_filter`.  The source reads `fsa[2]`
without guarding the length of `fsa`; on a postal code that is one or two
characters long after space removal this is an uncaught `IndexError`,
modelled by the `error` branch. -/
def build_postal_fsa_range_filter (qPostal : String) : Except String (Option String) :=
  if qPostal.isEmpty then .ok none
  else
    let fsa := (pyUpper (removeSpaces qPostal)).take 3
    if fsa.isEmpty then .ok none
    else
      match fsa.data[2]? with
      | none => .error "IndexError: string index out of range"
      | some lastChar =>
        let firstTwo := fsa.take 2
        if 'A' ≤ lastChar && lastChar < 'Z' then
          let nextLast := Char.ofNat (lastChar.toNat + 1)
          let fsaHigh := firstTwo.push nextLast
          .ok (some ("postalCode ge \x27" ++ escapeFilterStr fsa ++
                     "\x27 and postalCode lt \x27" ++ escapeFilterStr fsaHigh ++ "\x27"))
        else
          .ok (some ("postalCode ge \x27" ++ escapeFilterStr fsa ++ "\x27"))

/-- The name text that `generate_embedding` embeds: trimmed first, middle
and last names (canonical keys first, then legacy keys), `"NULL"`
blanked, joined with spaces and terminated by a period. -/
def embeddingText (q : Query) : String :=
  let first0 := pyStrip (pyOr q.legalFirstName (pyOr q.givenName ""))
  let last0 := pyStrip (pyOr q.legalLastName (pyOr q.surname ""))
  let middle0 := pyStrip (pyOr q.legalMiddleNames (pyOr q.middleName ""))
  let first := if first0 == "NULL" then "" else first0
  let last := if last0 == "NULL" then "" else last0
  let middle := if middle0 == "NULL" then "" else middle0
  let parts := [first, middle, last].filter (fun p => !p.isEmpty)
  String.intercalate " " parts ++ "."

/-- Embeds `generate_embedding`: no name text means no embedding; the
embedding service itself is the parameter `embedFn`, whose `none` result
models a transport failure. -/
def generate_embedding (embedFn : String → Option (List ℚ)) (q : Query) :
    Option (List ℚ) :=
  let text := embeddingText q
  if text == "." then none else embedFn text

/-- The normalized query date of birth used by the fuzzy path. -/
def fuzzy_qdob (q : Query) : String :=
  normalize_query_dob (pyOr q.dob (pyOr q.birthDate ""))

/-- The stripped query mincode used by the fuzzy path. -/
def fuzzy_qmincode (q : Query) : String := pyStrip (pyOr q.mincode "")

/-- The stripped query postal code used by the fuzzy path. -/
def fuzzy_qpostal (q : Query) : String :=
  pyStrip (pyOr q.postalCode (pyOr q.postal ""))

/-- The upper-cased query sex code used by the fuzzy path. -/
def fuzzy_qsex (q : Query) : String := pyUpper (pyOr q.sexCode (pyOr q.sex ""))

/-- The parenthesized range clauses available for the query, in source
order (date of birth, mincode, postal), given the postal clause. -/
def fuzzy_or_clauses (q : Query) (postExpr : Option String) : List String :=
  ([build_dob_month_range_filter (fuzzy_qdob q),
    build_mincode_prefix_range_filter (fuzzy_qmincode q),
    postExpr].filterMap id).map (fun e => "(" ++ e ++ ")")

/-- The sex-only equality filter. -/
def sex_only_filter (q : Query) : String :=
  "sexCode eq \x27" ++ escapeFilterStr (fuzzy_qsex q) ++ "\x27"

/-- The combined filter of the main vector attempt: the OR block of the
range clauses, AND-ed with the sex equality when sex is supplied; the
sex-only filter when no range clause exists; no filter when nothing is
supplied. -/
def fuzzy_main_filter (q : Query) (postExpr : Option String) : Option String :=
  let orClauses := fuzzy_or_clauses q postExpr
  if !orClauses.isEmpty then
    let orBlock := String.intercalate " or " orClauses
    if !(fuzzy_qsex q).isEmpty then
      some ("sexCode eq \x27" ++ escapeFilterStr (fuzzy_qsex q) ++
            "\x27 and (" ++ orBlock ++ ")")
    else some ("(" ++ orBlock ++ ")")
  else if !(fuzzy_qsex q).isEmpty then some (sex_only_filter q)
  else none

/-- The diagnostic label recorded for the main vector attempt. -/
def mainFilterLabel : Option String → String
  | some fe => "OR-RANGE filter: " ++ fe
  | none => "NO filter (no dob/mincode/postal/sex)"

/-- Embeds `_rank_with_light_scoring` on one candidate: attach the
per-field similarities and the weighted final score
`base + 0.5·dob + 0.3·mincode + 0.2·postal + 0.1·sex`. -/
def scoreCandidate (qDob qMincode qPostal qSex : String) (c : Candidate) :
    Candidate :=
  let baseScore := c.searchScore.getD 0
  let dobSim := dobSimilarity qDob c.doc.dob
  let mincodeSim := mincodeSimilarity qMincode (pyOr c.doc.mincode "")
  let postalSim := postalSimilarity qPostal (pyOr c.doc.postalCode "")
  let sexSim := sexSimilarity qSex (pyUpper (pyOr c.doc.sexCode ""))
  let finalScore := baseScore + 1/2 * dobSim + 3/10 * mincodeSim
      + 1/5 * postalSim + 1/10 * sexSim
  { c with base_search_score := some baseScore, dob_sim := some dobSim,
           mincode_sim := some mincodeSim, postal_sim := some postalSim,
           sex_sim := some sexSim, final_score := some finalScore,
           search_method := some "fuzzy_vector_or_ranges" }

/-- Embeds `_rank_with_light_scoring`: score every candidate and sort
descending by final score (`list.sort` is a stable sort, as is
`mergeSort`). -/
def rank_with_light_scoring (qDob qMincode qPostal qSex : String)
    (candidates : List Candidate) : List Candidate :=
  (candidates.map (scoreCandidate qDob qMincode qPostal qSex)).mergeSort
    (fun a b => b.final_score.getD 0 ≤ a.final_score.getD 0)

/-- The main vector attempt of `soft_fuzzy_search` (step 5) together with
its fallback cascade (step 6): returns the first non-empty candidate set
along with the diagnostic labels of every filter attempted, in order. -/
def runCascade (vsearch : Option String → Nat → List Candidate) (q : Query)
    (postExpr : Option String) : List Candidate × List String :=
  let qSex := fuzzy_qsex q
  let usedBuckets := !(fuzzy_or_clauses q postExpr).isEmpty
  let filterExpr := fuzzy_main_filter q postExpr
  let filtersRun0 := [mainFilterLabel filterExpr]
  let topK := 150
  let candidates1 := vsearch filterExpr topK
  let afterSexFallback :=
    if candidates1.isEmpty && usedBuckets && !qSex.isEmpty then
      (vsearch (some (sex_only_filter q)) topK,
       filtersRun0 ++ ["SEX-ONLY fallback: " ++ sex_only_filter q])
    else (candidates1, filtersRun0)
  if afterSexFallback.1.isEmpty && filterExpr.isSome then
    (vsearch none topK, afterSexFallback.2 ++ ["NO-FILTER final fallback"])
  else afterSexFallback

/-- The ranked-output dictionary of `soft_fuzzy_search` (step 7), with
the given diagnostic labels and pre-ranking candidates. -/
def rankedFuzzyResult (q : Query) (labels : List String)
    (cands : List Candidate) : FuzzyResult :=
  { results := (rank_with_light_scoring (fuzzy_qdob q) (fuzzy_qmincode q)
      (fuzzy_qpostal q) (fuzzy_qsex q) cands).take 20,
    count := ((rank_with_light_scoring (fuzzy_qdob q) (fuzzy_qmincode q)
      (fuzzy_qpostal q) (fuzzy_qsex q) cands).take 20).length,
    methodology :=
      { search_method := some "vector_only_with_or_range_filter",
        embedding_generated := some true,
        filters_run := some labels,
        vector_top_k := some 150,
        candidates_before_ranking := some cands.length,
        candidates_returned := some ((rank_with_light_scoring (fuzzy_qdob q)
          (fuzzy_qmincode q) (fuzzy_qpostal q) (fuzzy_qsex q) cands).take 20).length } }

/-- The empty-output dictionary of `soft_fuzzy_search` when every attempt
returned nothing. -/
def emptyFuzzyResult (labels : List String) : FuzzyResult :=
  { results := [], count := 0,
    methodology :=
      { reason := some "No candidates found from OR-range/sex filter and fallbacks",
        filters_run := some labels } }

/-- Embeds `soft_fuzzy_search`.  The nearest-neighbor call
`_vector_search_once` is the parameter `vsearch` (filter expression and
`top` count); the embedding service is `embedFn`.  The uncaught
`IndexError` of the postal filter builder propagates. -/
def soft_fuzzy_search (vsearch : Option String → Nat → List Candidate)
    (embedFn : String → Option (List ℚ)) (q : Query) :
    Except String FuzzyResult :=
  match generate_embedding embedFn q with
  | none =>
    .ok { results := [], count := 0,
          methodology := { reason := some "No name embedding available for fuzzy search" } }
  | some _ =>
    match build_postal_fsa_range_filter (fuzzy_qpostal q) with
    | .error e => .error e
    | .ok postExpr =>
      let cascade := runCascade vsearch q postExpr
      if cascade.1.isEmpty then .ok (emptyFuzzyResult cascade.2)
      else .ok (rankedFuzzyResult q cascade.2 cascade.1)

/-! ## Arbitration workflow (`pen_agent/schemas.py`, `nodes.py`,
`pen_graph.py`) -/

/-- The `Decision` literal of `schemas.py`. -/
inductive Decision
  | CONFIRM
  | REVIEW
  | NO_MATCH
deriving DecidableEq

/-- The `Severity` literal of `schemas.py`. -/
inductive Severity
  | high
  | medium
  | low
deriving DecidableEq

/-- The `IssueType` literal of `schemas.py`. -/
inductive IssueType
  | typo
  | outdated
  | missing
  | conflict
  | formatting
deriving DecidableEq

/-- The `Mismatch` model of `schemas.py`. -/
structure Mismatch where
  field : String
  detail : String
  severity : Severity := .medium
deriving DecidableEq

/-- The `SuspectedInputIssue` model of `schemas.py`. -/
structure SuspectedInputIssue where
  field : String
  issue : IssueType
  hint : String
deriving DecidableEq

/-- The `CandidateRecord` model of `schemas.py` (the shape the decision
assistant echoes back; `extras` carries stringified leftover fields). -/
structure CandidateRecordS where
  student_id : String
  pen : Option String := none
  legalFirstName : Option String := none
  legalMiddleNames : Option String := none
  legalLastName : Option String := none
  dob : Option String := none
  sexCode : Option String := none
  mincode : Option String := none
  postalCode : Option String := none
  localID : Option String := none
  gradeCode : Option String := none
  search_score : Option ℚ := none
  final_score : Option ℚ := none
  search_method : Option String := none
  extras : List (String × Option String) := []
deriving DecidableEq

/-- The `ReviewCandidate` model of `schemas.py`. -/
structure ReviewCandidate where
  candidate : CandidateRecordS
  reasons : List String := []
  issues : List Mismatch := []
deriving DecidableEq

/-- The `CandidateAnalysis` model of `schemas.py`: the schema the
decision assistant's output is validated against.  Note that
`review_candidates` carries no length bound and no uniqueness constraint. -/
structure CandidateAnalysis where
  decision : Decision
  confidence : ℚ
  reasons : List String := []
  chosen_candidate : Option CandidateRecordS := none
  mismatches : List Mismatch := []
  review_candidates : List ReviewCandidate := []
  suspected_input_issues : List SuspectedInputIssue := []
deriving DecidableEq

/-- The dictionary `slim_candidate` produces: exactly the allow-listed
fields (`ALLOWED_CANDIDATE_FIELDS`), null values dropped, with
`@search.score` renamed to `search_score`. -/
structure SlimCand where
  student_id : Option String := none
  pen : Option String := none
  legalFirstName : Option String := none
  legalMiddleNames : Option String := none
  legalLastName : Option String := none
  dob : Option String := none
  sexCode : Option String := none
  mincode : Option String := none
  postalCode : Option String := none
  localID : Option String := none
  gradeCode : Option String := none
  search_score : Option ℚ := none
  final_score : Option ℚ := none
  search_method : Option String := none
deriving DecidableEq

/-- Embeds `slim_candidate` of `nodes.py`.  A key absent from the
allow-list (the per-field similarity sub-scores, the base score, any
embedding payload) does not survive into the slim dictionary. -/
def slim_candidate (c : Candidate) : SlimCand :=
  { student_id := c.doc.student_id, pen := c.doc.pen,
    legalFirstName := c.doc.legalFirstName,
    legalMiddleNames := c.doc.legalMiddleNames,
    legalLastName := c.doc.legalLastName,
    dob := c.doc.dob, sexCode := c.doc.sexCode, mincode := c.doc.mincode,
    postalCode := c.doc.postalCode, localID := c.doc.localID,
    gradeCode := c.doc.gradeCode,
    search_score := c.searchScore, final_score := c.final_score,
    search_method := c.search_method }

/-- The hand-built analysis dictionaries of `nodes.py` (the router's
terminal branches and the LLM failure branch); these still use the
legacy `ranked_candidates` key and hold slim candidate dictionaries. -/
structure LegacyAnalysis where
  decision : Decision
  confidence : ℚ
  reasons : List String
  chosen_candidate : Option SlimCand
  mismatches : List Mismatch
  ranked_candidates : List SlimCand
  suspected_input_issues : List SuspectedInputIssue
deriving DecidableEq

/-- The `analysis` entry of the workflow state: either a hand-built
legacy dictionary or a schema-validated `CandidateAnalysis` dump. -/
inductive AnalysisPayload
  | legacy (a : LegacyAnalysis)
  | validated (a : CandidateAnalysis)
deriving DecidableEq

/-- The `search_metadata` entry built by `fetch_candidates_node`. -/
structure SearchMeta where
  status : Option String := none
  search_type : Option String := none
  count : Option Nat := none
  pen_status : Option String := none
  error : Option String := none
deriving DecidableEq

/-- The `PenMatchState` of `state.py`, with unset keys as `none`. -/
structure PenMatchState where
  request : Query
  candidates : List Candidate := []
  search_metadata : Option SearchMeta := none
  analysis : Option AnalysisPayload := none
  final_decision : Option Decision := none
  selected_candidate : Option String := none
  confidence : Option ℚ := none
  route : Option String := none
  llm_used : Option Bool := none
  error : Option String := none
deriving DecidableEq

/-- Embeds `fetch_candidates_node`: delegate to the search service
(passed as `searchFn`), catching any exception into an empty candidate
set with error metadata. -/
def fetch_candidates_node (searchFn : Query → Except String SearchResult)
    (s : PenMatchState) : PenMatchState :=
  match searchFn s.request with
  | .ok res =>
    { s with candidates := res.results,
             search_metadata := some { status := some res.status,
                                       search_type := some res.search_type,
                                       count := some res.count,
                                       pen_status := some res.pen_status } }
  | .error e =>
    { s with candidates := [],
             search_metadata := some { status := some "error", error := some e } }

/-- Embeds `decision_router_node`: terminal NO_MATCH on zero candidates,
terminal auto-CONFIRM on exactly one, route to the LLM otherwise. -/
def decision_router_node (s : PenMatchState) : PenMatchState :=
  match s.candidates with
  | [] =>
    { s with final_decision := some .NO_MATCH, selected_candidate := none,
             confidence := some 0, llm_used := some false,
             analysis := some (.legacy
               { decision := .NO_MATCH, confidence := 0,
                 reasons := ["No candidates found in search"],
                 chosen_candidate := none, mismatches := [],
                 ranked_candidates := [],
                 suspected_input_issues :=
                   [{ field := "unknown", issue := .missing,
                      hint := "No candidates returned; check core identifiers (name, DOB, pen)." }] }),
             route := some "end" }
  | [c] =>
    { s with final_decision := some .CONFIRM,
             selected_candidate := c.doc.student_id,
             confidence := some 1, llm_used := some false,
             analysis := some (.legacy
               { decision := .CONFIRM, confidence := 1,
                 reasons := ["Single candidate returned from search"],
                 chosen_candidate := some (slim_candidate c), mismatches := [],
                 ranked_candidates := [], suspected_input_issues := [] }),
             route := some "end" }
  | _ => { s with route := some "llm_analyze", llm_used := some true }

/-- Embeds `llm_analyze_node`: slim the top 20 candidates, invoke the
decision assistant (parameter `llm`, whose `error` result models any
transport failure or schema violation of the structured output), and on
failure synthesize the fail-safe NO_MATCH outcome instead of
propagating. -/
def llm_analyze_node (llm : List SlimCand → Except String CandidateAnalysis)
    (s : PenMatchState) : PenMatchState :=
  let candidatesForLLM := (s.candidates.take 20).map slim_candidate
  match llm candidatesForLLM with
  | .ok result =>
    { s with analysis := some (.validated result),
             final_decision := some result.decision,
             selected_candidate := result.chosen_candidate.map (·.student_id),
             confidence := some result.confidence,
             llm_used := some true, route := some "end" }
  | .error e =>
    { s with analysis := some (.legacy
               { decision := .NO_MATCH, confidence := 0,
                 reasons := ["LLM analysis failed: " ++ e],
                 chosen_candidate := none, mismatches := [],
                 ranked_candidates := [],
                 suspected_input_issues :=
                   [{ field := "unknown", issue := .conflict,
                      hint := "LLM call failed; check model deployment/base_url/schema." }] }),
             final_decision := some .NO_MATCH, selected_candidate := none,
             confidence := some 0, llm_used := some true,
             error := some e, route := some "end" }

/-- Embeds the compiled graph of `build_graph` (`pen_graph.py`):
START → fetch → router → (analyze when routed to `llm_analyze`) → END. -/
def run_graph (searchFn : Query → Except String SearchResult)
    (llm : List SlimCand → Except String CandidateAnalysis)
    (q : Query) : PenMatchState :=
  let s1 := fetch_candidates_node searchFn { request := q }
  let s2 := decision_router_node s1
  if s2.route == some "llm_analyze" then llm_analyze_node llm s2 else s2

/-! ## Helper lemmas -/

theorem string_take_of_length_le {s : String} {n : Nat} (h : s.length ≤ n) :
    s.take n = s := by
  cases s with
  | mk data =>
    rw [String.take_eq]
    exact congrArg String.mk (List.take_of_length_le h)

theorem keepStr_eq_none_iff (s : String) : keepStr s = none ↔ s = "" := by
  by_cases hs : s = "" <;> simp [keepStr, String.isEmpty_iff, hs]

theorem keepStr_of_ne {s : String} (h : s ≠ "") : keepStr s = some s := by
  simp [keepStr, String.isEmpty_iff, h]

theorem keepOpt_eq_none_iff (o : Option String) :
    keepOpt o = none ↔ (o = none ∨ o = some "") := by
  cases o with
  | none => simp [keepOpt]
  | some s =>
    by_cases hs : s = "" <;> simp [keepOpt, keepStr, String.isEmpty_iff, hs]

theorem keepOpt_some {o : Option String} {v : String} (hv : v ≠ "")
    (h : o = some v) : keepOpt o = some v := by
  subst h
  simp [keepOpt, keepStr, String.isEmpty_iff, hv]

/-! ## C9: the field similarity scorers -/

/-- C9: the date-of-birth and postal-code similarity scorers are pure
functions with the tiers the spec states — date of birth: 1.0 exact, 0.7
same year and month (the first seven characters of the canonical
`YYYY-MM-DD` rendering), 0.4 same year (first four), else 0.0; postal
code, after stripping spaces and upper-casing: 1.0 exact, 0.7 same first
three characters, 0.5 same first two, else 0.0 — they return 0.0 when
either value is missing, and they reproduce the §8 boundary vectors. -/
theorem C9_field_similarity_scorers :
    (∀ q, dobSimilarity q none = 0) ∧
    (∀ c, dobSimilarity "" c = 0) ∧
    (∀ q, dobSimilarity q (some "") = 0) ∧
    (∀ c, postalSimilarity "" c = 0) ∧
    (∀ q, postalSimilarity q "" = 0) ∧
    (∀ q c : String, ¬ q.isEmpty = true → ¬ c.isEmpty = true →
      postalSimilarity q c =
        (if pyUpper (removeSpaces q) = pyUpper (removeSpaces c) then 1
         else if (3 ≤ (pyUpper (removeSpaces q)).length ∧
                  3 ≤ (pyUpper (removeSpaces c)).length) ∧
                  (pyUpper (removeSpaces q)).take 3 = (pyUpper (removeSpaces c)).take 3
              then 7/10
         else if (2 ≤ (pyUpper (removeSpaces q)).length ∧
                  2 ≤ (pyUpper (removeSpaces c)).length) ∧
                  (pyUpper (removeSpaces q)).take 2 = (pyUpper (removeSpaces c)).take 2
              then 1/2
         else 0)) ∧
    (∀ q c : String, ¬ q.isEmpty = true → ¬ c.isEmpty = true → c.length ≤ 10 →
      dobSimilarity q (some c) =
        (if q = c then 1
         else if q.take 7 = c.take 7 then 7/10
         else if q.take 4 = c.take 4 then 2/5
         else 0)) ∧
    postalSimilarity "V3N 1H4" "V3N1H4" = 1 ∧
    postalSimilarity "V3N1H4" "V3N4H1" = 7/10 ∧
    postalSimilarity "V3N1H4" "X1A1A1" = 0 ∧
    dobSimilarity "2001-02-10" (some "2001-02-15") = 7/10 ∧
    dobSimilarity "2001-02-10" (some "2001-09-10") = 2/5 ∧
    dobSimilarity "2001-02-10" (some "1999-02-10") = 0 := by
  refine ⟨fun q => rfl, fun c => by cases c <;> rfl, fun q => ?_, fun c => rfl,
    fun q => ?_, fun q c hq hc => ?_, fun q c hq hc hlen => ?_,
    rfl, rfl, rfl, rfl, rfl, rfl⟩
  · unfold dobSimilarity
    cases h : q.isEmpty <;> simp only [h] <;> rfl
  · unfold postalSimilarity
    cases h : q.isEmpty <;> simp only [h] <;> rfl
  · simp only [Bool.not_eq_true] at hq hc
    unfold postalSimilarity
    simp only [hq, hc, Bool.or_self, Bool.false_eq_true, if_false, beq_iff_eq,
      Bool.and_eq_true, decide_eq_true_eq, ge_iff_le]
  · simp only [Bool.not_eq_true] at hq hc
    simp only [dobSimilarity]
    rw [string_take_of_length_le hlen]
    simp only [hq, hc, Bool.or_self, Bool.false_eq_true, if_false, beq_iff_eq]

/-- C9 witness: the general postal and date-of-birth tier clauses of
`C9_field_similarity_scorers` applied at the §8 boundary inputs. -/
theorem C9_field_similarity_scorers_witness :
    postalSimilarity "V3N1H4" "V3N4H1" = 7/10 ∧
    dobSimilarity "2001-02-10" (some "2001-02-15") = 7/10 := by
  constructor
  · have h := C9_field_similarity_scorers.2.2.2.2.2.1 "V3N1H4" "V3N4H1"
      (by decide) (by decide)
    rw [h]; rfl
  · have h := C9_field_similarity_scorers.2.2.2.2.2.2.1 "2001-02-10" "2001-02-15"
      (by decide) (by decide) (by decide)
    rw [h]; rfl

/-! ## C10: the query normalizer -/

/-- C10 counterexample: an unparseable date of birth is NOT passed
through unchanged — `normalize_dob` strips surrounding whitespace before
its parse attempts and returns the stripped string on failure
(`dob = dob.strip()` precedes the fallback `return dob`), so the claim's
"passes the original string through unchanged" fails on
`" not-a-date "`. -/
theorem C10_counterexample_stripped_passthrough :
    normalize_dob (some " not-a-date ") = some "not-a-date" ∧
    some "not-a-date" ≠ some " not-a-date " := ⟨rfl, by decide⟩

/-- C10 (amended): normalization converts a date of birth supplied as
`YYYYMMDD` or `YYYY-MM-DD` to the canonical `YYYY-MM-DD` form, passes any
unparseable date-of-birth string through stripped of surrounding
whitespace but otherwise unchanged rather than failing the request, and
drops every key whose value is the empty string or null (the total
functions `normalize_dob` and `build_query_dict` cannot raise). -/
theorem C10_normalization :
    (∀ (s : String) (y m d : Nat), ¬ s.isEmpty = true →
      strptimeCompact (pyStrip s) = some (y, m, d) →
      normalize_dob (some s) = some (fmtDate y m d)) ∧
    (∀ (s : String) (y m d : Nat), ¬ s.isEmpty = true →
      (pyStrip s).length = 10 →
      (pyStrip s).data[4]? = some '-' →
      (pyStrip s).data[7]? = some '-' →
      strptimeDash (pyStrip s) = some (y, m, d) →
      normalize_dob (some s) = some (fmtDate y m d)) ∧
    (∀ s : String, ¬ s.isEmpty = true →
      strptimeCompact (pyStrip s) = none →
      strptimeDash (pyStrip s) = none →
      normalize_dob (some s) = some (pyStrip s)) ∧
    normalize_dob none = none ∧ normalize_dob (some "") = none ∧
    (∀ q : StudentQueryIn,
      ((build_query_dict q).legalFirstName = none ↔ q.legalFirstName = "") ∧
      (q.legalFirstName ≠ "" →
        (build_query_dict q).legalFirstName = some q.legalFirstName) ∧
      ((build_query_dict q).legalLastName = none ↔ q.legalLastName = "") ∧
      (q.legalLastName ≠ "" →
        (build_query_dict q).legalLastName = some q.legalLastName) ∧
      ((build_query_dict q).legalMiddleNames = none ↔
        (q.legalMiddleNames = none ∨ q.legalMiddleNames = some "")) ∧
      (∀ v, v ≠ "" → q.legalMiddleNames = some v →
        (build_query_dict q).legalMiddleNames = some v) ∧
      ((build_query_dict q).localID = none ↔
        (q.localID = none ∨ q.localID = some "")) ∧
      (∀ v, v ≠ "" → q.localID = some v →
        (build_query_dict q).localID = some v) ∧
      ((build_query_dict q).sexCode = none ↔
        (q.sexCode = none ∨ q.sexCode = some "")) ∧
      (∀ v, v ≠ "" → q.sexCode = some v →
        (build_query_dict q).sexCode = some v) ∧
      ((build_query_dict q).postalCode = none ↔
        (q.postalCode = none ∨ q.postalCode = some "")) ∧
      (∀ v, v ≠ "" → q.postalCode = some v →
        (build_query_dict q).postalCode = some v) ∧
      ((build_query_dict q).mincode = none ↔
        (q.mincode = none ∨ q.mincode = some "")) ∧
      (∀ v, v ≠ "" → q.mincode = some v →
        (build_query_dict q).mincode = some v) ∧
      ((build_query_dict q).pen = none ↔ (q.pen = none ∨ q.pen = some "")) ∧
      (∀ v, v ≠ "" → q.pen = some v → (build_query_dict q).pen = some v) ∧
      ((build_query_dict q).gradeCode = none ↔
        (q.gradeCode = none ∨ q.gradeCode = some "")) ∧
      (∀ v, v ≠ "" → q.gradeCode = some v →
        (build_query_dict q).gradeCode = some v) ∧
      ((q.dob = none ∨ q.dob = some "") → (build_query_dict q).dob = none) ∧
      (∀ s v, q.dob = some s → s ≠ "" → normalize_dob (some s) = some v →
        v ≠ "" → (build_query_dict q).dob = some v)) := by
  refine ⟨?_, ?_, ?_, rfl, rfl, ?_⟩
  · intro s y m d hs hparse
    simp only [Bool.not_eq_true] at hs
    unfold normalize_dob
    simp only [hs, Bool.false_eq_true, if_false]
    have hguard : ((pyStrip s).length == 8 && allDigits (pyStrip s)) = true := by
      by_contra hg
      unfold strptimeCompact at hparse
      simp only [Bool.not_eq_true] at hg
      rw [hg] at hparse
      simp at hparse
    rw [hguard]
    simp only [if_true]
    rw [hparse]
  · intro s y m d hs hlen h4 h7 hparse
    simp only [Bool.not_eq_true] at hs
    unfold normalize_dob
    simp only [hs, Bool.false_eq_true, if_false]
    have hg8 : ((pyStrip s).length == 8) = false := by
      simp [hlen]
    rw [hg8]
    simp only [Bool.false_and, Bool.false_eq_true, if_false]
    have hcond : ((pyStrip s).length == 10 && (pyStrip s).data[4]? == some '-'
        && (pyStrip s).data[7]? == some '-') = true := by
      simp [hlen, h4, h7]
    rw [hcond]
    simp only [if_true]
    rw [hparse]
  · intro s hs hc hd
    simp only [Bool.not_eq_true] at hs
    unfold normalize_dob
    simp only [hs, Bool.false_eq_true, if_false]
    split
    · rw [hc]
    · split
      · rw [hd]
      · rfl
  · intro q
    refine ⟨keepStr_eq_none_iff _, fun h => keepStr_of_ne h,
      keepStr_eq_none_iff _, fun h => keepStr_of_ne h,
      keepOpt_eq_none_iff _, fun v hv h => keepOpt_some hv h,
      keepOpt_eq_none_iff _, fun v hv h => keepOpt_some hv h,
      keepOpt_eq_none_iff _, fun v hv h => keepOpt_some hv h,
      keepOpt_eq_none_iff _, fun v hv h => keepOpt_some hv h,
      keepOpt_eq_none_iff _, fun v hv h => keepOpt_some hv h,
      keepOpt_eq_none_iff _, fun v hv h => keepOpt_some hv h,
      keepOpt_eq_none_iff _, fun v hv h => keepOpt_some hv h,
      ?_, ?_⟩
    · intro h
      show (match keepOpt q.dob with
            | none => none
            | some s =>
              match normalize_dob (some s) with
              | none => none
              | some v => keepStr v) = none
      have : keepOpt q.dob = none := (keepOpt_eq_none_iff _).mpr h
      rw [this]
    · intro s v hfield hs hnorm hv
      show (match keepOpt q.dob with
            | none => none
            | some s =>
              match normalize_dob (some s) with
              | none => none
              | some v => keepStr v) = some v
      rw [keepOpt_some hs hfield]
      show (match normalize_dob (some s) with
            | none => none
            | some v => keepStr v) = some v
      rw [hnorm]
      exact keepStr_of_ne hv

/-- C10 witness: `C10_normalization` applied at a compact date, an
unparseable date, and a query with an empty sex code. -/
theorem C10_normalization_witness :
    normalize_dob (some "20010210") = some (fmtDate 2001 2 10) ∧
    normalize_dob (some " not-a-date ") = some (pyStrip " not-a-date ") ∧
    (build_query_dict { legalFirstName := "M", legalLastName := "L", sexCode := some "" }).sexCode = none :=
  ⟨C10_normalization.1 "20010210" 2001 2 10 (by decide) (by decide),
   C10_normalization.2.2.1 " not-a-date " (by decide) (by decide) (by decide),
   ((C10_normalization.2.2.2.2.2
      { legalFirstName := "M", legalLastName := "L", sexCode := some "" }).2.2.2.2.2.2.2.2.1).mpr
     (Or.inr rfl)⟩

/-! ## C8: the unguarded postal-filter index access -/

/-- C8 (code bug): a postal code that is one or two characters long after
space removal makes `_build_postal_fsa_range_filter` read `fsa[2]` out of
range; the `IndexError` is uncaught in `soft_fuzzy_search` and in
`search_students`, so it reaches the caller instead of degrading to fewer
candidates. -/
theorem C8_postal_filter_index_error :
    build_postal_fsa_range_filter "V3" =
      .error "IndexError: string index out of range" ∧
    soft_fuzzy_search (fun _ _ => []) (fun _ => some [1])
      { legalFirstName := some "MICHAEL", legalLastName := some "LEE", postalCode := some "V3" } =
      .error "IndexError: string index out of range" ∧
    search_students (soft_fuzzy_search (fun _ _ => []) (fun _ => some [1])) []
      { legalFirstName := some "MICHAEL", legalLastName := some "LEE", postalCode := some "V3" } =
      .error "IndexError: string index out of range" :=
  ⟨rfl, rfl, rfl⟩

/-! ## C2: the PEN-anchored classification -/

theorem countFold (l : List (Option String × Option String)) (a b : Nat) :
    (l.foldl
      (fun acc p =>
        match p.1 with
        | none => acc
        | some qv =>
          if qv.isEmpty then acc
          else ((if fieldMatches qv p.2 then acc.1 + 1 else acc.1), acc.2 + 1))
      (a, b)) =
    (a + (l.filter (fun p => truthy p.1 && fieldMatches (pyOr p.1 "") p.2)).length,
     b + (l.filter (fun p => truthy p.1)).length) := by
  induction l generalizing a b with
  | nil => simp
  | cons p t ih =>
    rcases p with ⟨p1, p2⟩
    cases p1 with
    | none => simpa [truthy] using ih a b
    | some qv =>
      by_cases hq : qv.isEmpty = true
      · have ht : truthy (some qv) = false := by simp [truthy, hq]
        simp only [List.foldl_cons, hq, if_true, List.filter_cons, ht,
          Bool.false_and, Bool.false_eq_true, if_false]
        exact ih a b
      · have ht : truthy (some qv) = true := by simp [truthy, hq]
        have hpy : pyOr (some qv) "" = qv := by
          simp [pyOr, hq]
        by_cases hm : fieldMatches qv p2 = true
        · simp [hq, hm, ht, hpy, ih, List.filter_cons, Prod.ext_iff]
          omega
        · have hm' : fieldMatches qv p2 = false := by
            simpa using hm
          simp [hq, hm', ht, hpy, ih, List.filter_cons, Prod.ext_iff]
          omega

/-- `_count_matching_fields` counts exactly the provided fields and,
among them, those whose record value agrees after stripping and
upper-casing. -/
theorem countMatchingFields_eq (q : Query) (r : StudentRecord) :
    countMatchingFields q r =
      (((compareFieldPairs q r).filter
          (fun p => truthy p.1 && fieldMatches (pyOr p.1 "") p.2)).length,
       ((compareFieldPairs q r).filter (fun p => truthy p.1)).length) := by
  unfold countMatchingFields
  rw [countFold]
  simp

/-- Reduction of `search_students` on the PEN-found branch. -/
theorem search_students_pen_found
    (fuzzy : Query → Except String FuzzyResult) (idx : List StudentRecord)
    (q : Query) (p : String) (r : StudentRecord) (rest : List StudentRecord)
    (hpen : q.pen = some p) (hne : p ≠ "")
    (hfound : (idx.filter (fun t => t.pen == some p)).take 2 = r :: rest) :
    search_students fuzzy idx q =
      .ok { pen_status :=
              (if (countMatchingFields q r).2 == 0
                  || (countMatchingFields q r).1 == (countMatchingFields q r).2
               then "AA"
               else if (countMatchingFields q r).1 ≥ 2 then "BM" else "F1"),
            search_type := "pen_lookup",
            results := (r :: rest).map recToCand,
            count := (r :: rest).length } := by
  have hemp : p.isEmpty = false := by
    simp [Bool.eq_false_iff, String.isEmpty_iff, hne]
  have htr : truthy q.pen = true := by
    rw [hpen]
    simp [truthy, hemp]
  have hpy : pyOr q.pen "" = p := by
    rw [hpen]
    simp [pyOr, hemp]
  unfold search_students
  simp only [htr, if_true]
  rw [hpy]
  unfold search_by_pen
  rw [hfound]

/-- A query and a record under which the claimed and the actual PEN-branch
classifications diverge: the one supplied comparable field carries a
leading space. -/
def c2query : Query := { pen := some "124809765", legalFirstName := some " A" }

/-- The single indexed record of the C2 counterexample. -/
def c2record : StudentRecord := { pen := some "124809765", legalFirstName := some "A" }

/-- The index of the C2 counterexample. -/
def c2idx : List StudentRecord := [c2record]

/-- A fuzzy service stub returning no candidates. -/
def noFuzzy : Query → Except String FuzzyResult := fun _ => .ok {}

/-- Modelled from the claim's words (C2): one field comparison by
case-insensitive exact string equality, with no whitespace trimming. -/
def claimFieldMatches (qv : String) (rv : Option String) : Bool :=
  match rv with
  | none => false
  | some r => pyUpper r == pyUpper qv

/-- Modelled from the claim's words (C2): `(matched, supplied)` counts
over the comparable fields under untrimmed case-insensitive equality. -/
def claimMatchCounts (q : Query) (r : StudentRecord) : Nat × Nat :=
  (((compareFieldPairs q r).filter
      (fun x => truthy x.1 && claimFieldMatches (pyOr x.1 "") x.2)).length,
   ((compareFieldPairs q r).filter (fun x => truthy x.1)).length)

/-- Modelled from the claim's words (C2): the claimed AA / BM / F1
classification of the PEN-found branch. -/
def claimPenStatus (q : Query) (r : StudentRecord) : String :=
  if (claimMatchCounts q r).2 == 0
      || (claimMatchCounts q r).1 == (claimMatchCounts q r).2 then "AA"
  else if (claimMatchCounts q r).1 ≥ 2 then "BM"
  else "F1"

/-- C2 counterexample: the code compares fields after `.strip()`, not by
plain case-insensitive equality.  On a query whose first name is `" A"`
against a record holding `"A"`, the code counts a match and returns
ALL_MATCH (`AA`), while the claim's untrimmed comparison counts 0 of 1
and so classifies the outcome as WEAK_MATCH (`F1`). -/
theorem C2_counterexample_trimmed_comparison :
    (search_students noFuzzy c2idx c2query).map SearchResult.pen_status =
      .ok "AA" ∧
    claimPenStatus c2query c2record = "F1" ∧
    "AA" ≠ "F1" := ⟨rfl, rfl, by decide⟩

/-- C2 (amended): when the supplied PEN is found, the resolver compares
every other supplied comparable field against the retrieved record by
case-insensitive equality after trimming surrounding whitespace, returns
immediately from the PEN branch with AA when zero comparable fields are
supplied or all supplied fields match, BM when at least 2 but not all
match, and F1 when fewer than 2 match; the fuzzy resolver is never
invoked in this branch (the result does not depend on it). -/
theorem C2_pen_found_classification
    (fuzzy fuzzy2 : Query → Except String FuzzyResult) (idx : List StudentRecord)
    (q : Query) (p : String) (r : StudentRecord) (rest : List StudentRecord)
    (hpen : q.pen = some p) (hne : p ≠ "")
    (hfound : (idx.filter (fun t => t.pen == some p)).take 2 = r :: rest) :
    ∃ res, search_students fuzzy idx q = .ok res ∧
      res.search_type = "pen_lookup" ∧
      res.results = (r :: rest).map recToCand ∧
      res.count = (r :: rest).length ∧
      ((((compareFieldPairs q r).filter (fun x => truthy x.1)).length = 0 ∨
        ((compareFieldPairs q r).filter
          (fun x => truthy x.1 && fieldMatches (pyOr x.1 "") x.2)).length =
        ((compareFieldPairs q r).filter (fun x => truthy x.1)).length) →
        res.pen_status = "AA") ∧
      (¬(((compareFieldPairs q r).filter (fun x => truthy x.1)).length = 0 ∨
        ((compareFieldPairs q r).filter
          (fun x => truthy x.1 && fieldMatches (pyOr x.1 "") x.2)).length =
        ((compareFieldPairs q r).filter (fun x => truthy x.1)).length) →
        2 ≤ ((compareFieldPairs q r).filter
          (fun x => truthy x.1 && fieldMatches (pyOr x.1 "") x.2)).length →
        res.pen_status = "BM") ∧
      (¬(((compareFieldPairs q r).filter (fun x => truthy x.1)).length = 0 ∨
        ((compareFieldPairs q r).filter
          (fun x => truthy x.1 && fieldMatches (pyOr x.1 "") x.2)).length =
        ((compareFieldPairs q r).filter (fun x => truthy x.1)).length) →
        ((compareFieldPairs q r).filter
          (fun x => truthy x.1 && fieldMatches (pyOr x.1 "") x.2)).length < 2 →
        res.pen_status = "F1") ∧
      search_students fuzzy idx q = search_students fuzzy2 idx q := by
  have hmain := search_students_pen_found fuzzy idx q p r rest hpen hne hfound
  have hmain2 := search_students_pen_found fuzzy2 idx q p r rest hpen hne hfound
  refine ⟨_, hmain, rfl, rfl, rfl, ?_, ?_, ?_, hmain.trans hmain2.symm⟩
  · intro h
    show (if (countMatchingFields q r).2 == 0
            || (countMatchingFields q r).1 == (countMatchingFields q r).2
          then "AA"
          else if (countMatchingFields q r).1 ≥ 2 then "BM" else "F1") = "AA"
    rw [countMatchingFields_eq]
    rcases h with h | h <;> simp [h]
  · intro h h2
    show (if (countMatchingFields q r).2 == 0
            || (countMatchingFields q r).1 == (countMatchingFields q r).2
          then "AA"
          else if (countMatchingFields q r).1 ≥ 2 then "BM" else "F1") = "BM"
    rw [countMatchingFields_eq]
    push_neg at h
    simp [h.1, h.2, h2]
  · intro h h2
    show (if (countMatchingFields q r).2 == 0
            || (countMatchingFields q r).1 == (countMatchingFields q r).2
          then "AA"
          else if (countMatchingFields q r).1 ≥ 2 then "BM" else "F1") = "F1"
    rw [countMatchingFields_eq]
    push_neg at h
    simp [h.1, h.2]
    omega

/-- C2 witness: `C2_pen_found_classification` applied at the concrete
index `c2idx` and query `c2query`, where the single supplied field
matches after trimming, giving AA. -/
theorem C2_pen_found_classification_witness :
    (search_students noFuzzy c2idx c2query).map SearchResult.pen_status =
      .ok "AA" ∧
    search_students noFuzzy c2idx c2query = search_students noFuzzy c2idx c2query := by
  obtain ⟨res, h1, hst, hres, hcnt, hAA, hBM, hF1, hind⟩ :=
    C2_pen_found_classification noFuzzy noFuzzy c2idx c2query "124809765"
      c2record [] rfl (by decide) (by decide)
  have hstatus := hAA (by decide)
  rw [h1]
  exact ⟨congrArg Except.ok hstatus, rfl⟩

/-! ## C1: the equality-conjunction cardinality classification -/

theorem isSome_of_truthy {o : Option String} (h : truthy o = true) :
    o.isSome = true := by
  cases o <;> simp_all [truthy]

theorem queryHasAnyKey_of_hasHardFilter {q : Query}
    (h : hasHardFilter q = true) : queryHasAnyKey q = true := by
  unfold hasHardFilter at h
  unfold queryHasAnyKey
  simp only [Bool.or_eq_true] at h ⊢
  rcases h with ((((((((h | h) | h) | h) | h) | h) | h) | h) | h) <;>
    simp [isSome_of_truthy h]

/-- Reduction of the demographic path on a single exact match. -/
theorem demographicSearch_single (f : Query → Except String FuzzyResult)
    (idx : List StudentRecord) (qnp : Query) (hfil : hasHardFilter qnp = true)
    (h1 : (idx.filter (hardPred qnp)).length = 1) :
    demographicSearch f idx qnp =
      .ok { pen_status := "D1", search_type := "exact_match",
            results := (idx.filter (hardPred qnp)).map recToCand, count := 1 } := by
  have hkey : queryHasAnyKey qnp = true := queryHasAnyKey_of_hasHardFilter hfil
  unfold demographicSearch hard_filter_search
  simp only [hkey, hfil, if_true]
  have e1 : (idx.filter (hardPred qnp)).take 41 = idx.filter (hardPred qnp) :=
    List.take_of_length_le (by omega)
  have e2 : (idx.filter (hardPred qnp)).take 40 = idx.filter (hardPred qnp) :=
    List.take_of_length_le (by omega)
  rw [e1, e2, h1]
  simp

/-- Reduction of the demographic path on 2 to 40 exact matches. -/
theorem demographicSearch_multiple (f : Query → Except String FuzzyResult)
    (idx : List StudentRecord) (qnp : Query) (hfil : hasHardFilter qnp = true)
    (h2 : 2 ≤ (idx.filter (hardPred qnp)).length)
    (h40 : (idx.filter (hardPred qnp)).length ≤ 40) :
    demographicSearch f idx qnp =
      .ok { pen_status := "CM", search_type := "exact_match",
            results := (idx.filter (hardPred qnp)).map recToCand,
            count := (idx.filter (hardPred qnp)).length } := by
  have hkey : queryHasAnyKey qnp = true := queryHasAnyKey_of_hasHardFilter hfil
  unfold demographicSearch hard_filter_search
  simp only [hkey, hfil, if_true]
  have e1 : (idx.filter (hardPred qnp)).take 41 = idx.filter (hardPred qnp) :=
    List.take_of_length_le (by omega)
  have e2 : (idx.filter (hardPred qnp)).take 40 = idx.filter (hardPred qnp) :=
    List.take_of_length_le (by omega)
  rw [e1, e2]
  have hgt : ¬ (idx.filter (hardPred qnp)).length > 40 := by omega
  have hne1 : ((idx.filter (hardPred qnp)).length == 1) = false := by
    simp
    omega
  have hband : (1 < (idx.filter (hardPred qnp)).length &&
      (idx.filter (hardPred qnp)).length ≤ 40) = true := by
    simp
    omega
  simp only [hgt, if_false, hne1, Bool.false_eq_true, hband, if_true]

/-- Reduction of the demographic path on 41 or more true matches. -/
theorem demographicSearch_toomany (f : Query → Except String FuzzyResult)
    (idx : List StudentRecord) (qnp : Query) (hfil : hasHardFilter qnp = true)
    (h41 : 41 ≤ (idx.filter (hardPred qnp)).length) :
    demographicSearch f idx qnp =
      .ok { pen_status := "C0", search_type := "exact_match",
            message := some "Over 40 candidates found, please provide more specific information.",
            results := [], count := 41 } := by
  have hkey : queryHasAnyKey qnp = true := queryHasAnyKey_of_hasHardFilter hfil
  unfold demographicSearch hard_filter_search
  simp only [hkey, hfil, if_true]
  have e1 : ((idx.filter (hardPred qnp)).take 41).length = 41 := by
    rw [List.length_take]
    omega
  rw [e1]
  simp

/-- Reduction of `search_students` to the demographic path when no PEN is
supplied or the supplied PEN is not in the index. -/
theorem search_students_demographic (f : Query → Except String FuzzyResult)
    (idx : List StudentRecord) (q : Query)
    (hreach : truthy q.pen = false ∨
      idx.filter (fun t => t.pen == some (pyOr q.pen "")) = []) :
    search_students f idx q =
      demographicSearch f idx (if truthy q.pen then removePen q else q) := by
  unfold search_students
  cases htr : truthy q.pen with
  | false => simp [htr]
  | true =>
    rcases hreach with h | h
    · rw [htr] at h
      exact absurd h (by simp)
    · unfold search_by_pen
      rw [h]
      simp [htr]

/-- C1: every query that reaches the equality-conjunction lookup (no
usable PEN, or the PEN absent from the index) is classified by the
cardinality of the set of records matching the conjunction, queried with
a result cap of 41: exactly 1 match gives `D1` with that record, 2 to 40
matches give `CM` with exactly the matching set, and 41 or more matches
give `C0` with an empty list and the narrow-the-query message; with at
least one match the fuzzy resolver plays no part in the result. -/
theorem C1_equality_conjunction_cardinality
    (fuzzy fuzzy2 : Query → Except String FuzzyResult)
    (idx : List StudentRecord) (q : Query)
    (hreach : truthy q.pen = false ∨
      idx.filter (fun t => t.pen == some (pyOr q.pen "")) = [])
    (hfil : hasHardFilter (if truthy q.pen then removePen q else q) = true) :
    ((idx.filter (hardPred (if truthy q.pen then removePen q else q))).length = 1 →
      search_students fuzzy idx q =
        .ok { pen_status := "D1", search_type := "exact_match",
              results := (idx.filter
                (hardPred (if truthy q.pen then removePen q else q))).map recToCand,
              count := 1 }) ∧
    (2 ≤ (idx.filter (hardPred (if truthy q.pen then removePen q else q))).length →
      (idx.filter (hardPred (if truthy q.pen then removePen q else q))).length ≤ 40 →
      search_students fuzzy idx q =
        .ok { pen_status := "CM", search_type := "exact_match",
              results := (idx.filter
                (hardPred (if truthy q.pen then removePen q else q))).map recToCand,
              count := (idx.filter
                (hardPred (if truthy q.pen then removePen q else q))).length }) ∧
    (41 ≤ (idx.filter (hardPred (if truthy q.pen then removePen q else q))).length →
      search_students fuzzy idx q =
        .ok { pen_status := "C0", search_type := "exact_match",
              message := some "Over 40 candidates found, please provide more specific information.",
              results := [], count := 41 }) ∧
    (1 ≤ (idx.filter (hardPred (if truthy q.pen then removePen q else q))).length →
      search_students fuzzy idx q = search_students fuzzy2 idx q) := by
  have hred := search_students_demographic fuzzy idx q hreach
  have hred2 := search_students_demographic fuzzy2 idx q hreach
  refine ⟨?_, ?_, ?_, ?_⟩
  · intro h1
    rw [hred]
    exact demographicSearch_single fuzzy idx _ hfil h1
  · intro h2 h40
    rw [hred]
    exact demographicSearch_multiple fuzzy idx _ hfil h2 h40
  · intro h41
    rw [hred]
    exact demographicSearch_toomany fuzzy idx _ hfil h41
  · intro hpos
    rw [hred, hred2]
    by_cases h1 : (idx.filter (hardPred (if truthy q.pen then removePen q else q))).length = 1
    · rw [demographicSearch_single fuzzy idx _ hfil h1,
        demographicSearch_single fuzzy2 idx _ hfil h1]
    · by_cases h40 : (idx.filter (hardPred (if truthy q.pen then removePen q else q))).length ≤ 40
      · have h2 : 2 ≤ (idx.filter (hardPred (if truthy q.pen then removePen q else q))).length := by
          omega
        rw [demographicSearch_multiple fuzzy idx _ hfil h2 h40,
          demographicSearch_multiple fuzzy2 idx _ hfil h2 h40]
      · have h41 : 41 ≤ (idx.filter (hardPred (if truthy q.pen then removePen q else q))).length := by
          omega
        rw [demographicSearch_toomany fuzzy idx _ hfil h41,
          demographicSearch_toomany fuzzy2 idx _ hfil h41]

/-- The record of the C1 witness index. -/
def c1record : StudentRecord :=
  { student_id := some "S1", pen := some "124809765",
    legalFirstName := some "MICHAEL", legalLastName := some "LEE" }

/-- The query of the C1 witness. -/
def c1query : Query :=
  { legalFirstName := some "MICHAEL", legalLastName := some "LEE" }

/-- C1 witness: `C1_equality_conjunction_cardinality` applied at a
one-record index matched exactly by the query names. -/
theorem C1_equality_conjunction_cardinality_witness :
    search_students noFuzzy [c1record] c1query =
      .ok { pen_status := "D1", search_type := "exact_match",
            results := [recToCand c1record], count := 1 } := by
  have h := (C1_equality_conjunction_cardinality noFuzzy noFuzzy [c1record]
    c1query (Or.inl (by decide)) (by decide)).1 (by decide)
  exact h

/-! ## C4: the fallback cascade of the fuzzy resolver -/

/-- C4: on zero candidates from the main nearest-neighbor attempt the
resolver retries at most once with the sex-only filter (only when a
combined range filter was used and sex was supplied), then at most once
with no filter (only when any filter was used), in this fixed order,
stopping at the first attempt with candidates; the diagnostics record
every filter attempted in order, so the §8 scenario (clause two) shows
exactly the combined and the sex-only attempts with results taken from
the sex-only attempt. -/
theorem C4_fallback_cascade
    (vsearch : Option String → Nat → List Candidate)
    (embedFn : String → Option (List ℚ)) (q : Query)
    (emb : List ℚ) (postExpr : Option String)
    (hemb : generate_embedding embedFn q = some emb)
    (hpost : build_postal_fsa_range_filter (fuzzy_qpostal q) = .ok postExpr) :
    (vsearch (fuzzy_main_filter q postExpr) 150 ≠ [] →
      soft_fuzzy_search vsearch embedFn q = .ok (rankedFuzzyResult q
        [mainFilterLabel (fuzzy_main_filter q postExpr)]
        (vsearch (fuzzy_main_filter q postExpr) 150))) ∧
    (vsearch (fuzzy_main_filter q postExpr) 150 = [] →
      fuzzy_or_clauses q postExpr ≠ [] →
      fuzzy_qsex q ≠ "" →
      vsearch (some (sex_only_filter q)) 150 ≠ [] →
      soft_fuzzy_search vsearch embedFn q = .ok (rankedFuzzyResult q
        [mainFilterLabel (fuzzy_main_filter q postExpr),
         "SEX-ONLY fallback: " ++ sex_only_filter q]
        (vsearch (some (sex_only_filter q)) 150))) ∧
    (vsearch (fuzzy_main_filter q postExpr) 150 = [] →
      fuzzy_or_clauses q postExpr ≠ [] →
      fuzzy_qsex q ≠ "" →
      vsearch (some (sex_only_filter q)) 150 = [] →
      vsearch none 150 ≠ [] →
      soft_fuzzy_search vsearch embedFn q = .ok (rankedFuzzyResult q
        [mainFilterLabel (fuzzy_main_filter q postExpr),
         "SEX-ONLY fallback: " ++ sex_only_filter q,
         "NO-FILTER final fallback"]
        (vsearch none 150))) ∧
    (vsearch (fuzzy_main_filter q postExpr) 150 = [] →
      ¬(fuzzy_or_clauses q postExpr ≠ [] ∧ fuzzy_qsex q ≠ "") →
      (fuzzy_main_filter q postExpr).isSome = true →
      vsearch none 150 ≠ [] →
      soft_fuzzy_search vsearch embedFn q = .ok (rankedFuzzyResult q
        [mainFilterLabel (fuzzy_main_filter q postExpr),
         "NO-FILTER final fallback"]
        (vsearch none 150))) ∧
    (vsearch (fuzzy_main_filter q postExpr) 150 = [] →
      fuzzy_or_clauses q postExpr ≠ [] →
      fuzzy_qsex q ≠ "" →
      vsearch (some (sex_only_filter q)) 150 = [] →
      vsearch none 150 = [] →
      soft_fuzzy_search vsearch embedFn q = .ok (emptyFuzzyResult
        [mainFilterLabel (fuzzy_main_filter q postExpr),
         "SEX-ONLY fallback: " ++ sex_only_filter q,
         "NO-FILTER final fallback"])) := by
  have hFsome : ∀ (h : fuzzy_or_clauses q postExpr ≠ []) (hs : fuzzy_qsex q ≠ ""),
      (fuzzy_main_filter q postExpr).isSome = true := by
    intro h hs
    unfold fuzzy_main_filter
    simp [List.isEmpty_eq_false.mpr h]
    split <;> rfl
  refine ⟨?_, ?_, ?_, ?_, ?_⟩
  · intro hmain
    have hme : (vsearch (fuzzy_main_filter q postExpr) 150).isEmpty = false :=
      List.isEmpty_eq_false.mpr hmain
    unfold soft_fuzzy_search runCascade
    rw [hemb, hpost]
    simp [hme]
  · intro hmain hbuck hsex hsexres
    have hme : (vsearch (fuzzy_main_filter q postExpr) 150).isEmpty = true := by
      simp [hmain]
    have hbe : (fuzzy_or_clauses q postExpr).isEmpty = false :=
      List.isEmpty_eq_false.mpr hbuck
    have hse : (fuzzy_qsex q).isEmpty = false := by
      simp [Bool.eq_false_iff, String.isEmpty_iff, hsex]
    have hsr : (vsearch (some (sex_only_filter q)) 150).isEmpty = false :=
      List.isEmpty_eq_false.mpr hsexres
    unfold soft_fuzzy_search runCascade
    rw [hemb, hpost]
    simp [hme, hbe, hse, hsr]
  · intro hmain hbuck hsex hsexres hnores
    have hme : (vsearch (fuzzy_main_filter q postExpr) 150).isEmpty = true := by
      simp [hmain]
    have hbe : (fuzzy_or_clauses q postExpr).isEmpty = false :=
      List.isEmpty_eq_false.mpr hbuck
    have hse : (fuzzy_qsex q).isEmpty = false := by
      simp [Bool.eq_false_iff, String.isEmpty_iff, hsex]
    have hsr : (vsearch (some (sex_only_filter q)) 150).isEmpty = true := by
      simp [hsexres]
    have hnr : (vsearch none 150).isEmpty = false :=
      List.isEmpty_eq_false.mpr hnores
    have hfs := hFsome hbuck hsex
    unfold soft_fuzzy_search runCascade
    rw [hemb, hpost]
    simp [hme, hbe, hse, hsr, hnr, hfs]
  · intro hmain hnofb hfs hnores
    have hme : (vsearch (fuzzy_main_filter q postExpr) 150).isEmpty = true := by
      simp [hmain]
    have hnr : (vsearch none 150).isEmpty = false :=
      List.isEmpty_eq_false.mpr hnores
    have hcond : ¬(¬fuzzy_or_clauses q postExpr = [] ∧
        (fuzzy_qsex q).isEmpty = false) := by
      intro hAB
      apply hnofb
      refine ⟨hAB.1, ?_⟩
      intro hs
      have h2 := hAB.2
      rw [hs] at h2
      exact absurd h2 (by decide)
    unfold soft_fuzzy_search runCascade
    rw [hemb, hpost]
    simp [hme, hcond, hfs, hnr]
  · intro hmain hbuck hsex hsexres hnores
    have hme : (vsearch (fuzzy_main_filter q postExpr) 150).isEmpty = true := by
      simp [hmain]
    have hbe : (fuzzy_or_clauses q postExpr).isEmpty = false :=
      List.isEmpty_eq_false.mpr hbuck
    have hse : (fuzzy_qsex q).isEmpty = false := by
      simp [Bool.eq_false_iff, String.isEmpty_iff, hsex]
    have hsr : (vsearch (some (sex_only_filter q)) 150).isEmpty = true := by
      simp [hsexres]
    have hnr : (vsearch none 150).isEmpty = true := by
      simp [hnores]
    have hfs := hFsome hbuck hsex
    unfold soft_fuzzy_search runCascade
    rw [hemb, hpost]
    simp [hme, hbe, hse, hsr, hnr, hfs]

/-- The §8 cascade-scenario query: sex and institution code supplied. -/
def c4query : Query :=
  { legalFirstName := some "MICHAEL", legalLastName := some "LEE",
    mincode := some "05757079", sexCode := some "M" }

/-- A candidate row returned by the stub index. -/
def c4cand : Candidate := { doc := c1record, searchScore := some (9/10) }

/-- A vector-search stub with zero results under the combined filter and
one result under the sex-only filter. -/
def c4vsearch : Option String → Nat → List Candidate := fun f _ =>
  if f == some (sex_only_filter c4query) then [c4cand] else []

/-- An embedding-service stub. -/
def c4embed : String → Option (List ℚ) := fun _ => some [1]

/-- C4 witness: `C4_fallback_cascade` applied at the §8 scenario — the
combined attempt is empty, the sex-only fallback returns the results, and
the diagnostics list exactly those two attempts in order. -/
theorem C4_fallback_cascade_witness :
    soft_fuzzy_search c4vsearch c4embed c4query = .ok (rankedFuzzyResult c4query
      [mainFilterLabel (fuzzy_main_filter c4query none),
       "SEX-ONLY fallback: " ++ sex_only_filter c4query]
      [c4cand]) := by
  have h := (C4_fallback_cascade c4vsearch c4embed c4query [1] none rfl rfl).2.1
    (by rfl) (by decide) (by decide) (by decide)
  exact h

/-! ## C5: the weighted re-ranking -/

theorem rankedFuzzyResult_spec (q : Query) (labels : List String)
    (cands : List Candidate) :
    (rankedFuzzyResult q labels cands).results.length ≤ 20 ∧
    List.Pairwise (fun a b : Candidate =>
      b.final_score.getD 0 ≤ a.final_score.getD 0)
      (rankedFuzzyResult q labels cands).results ∧
    ∀ c ∈ (rankedFuzzyResult q labels cands).results,
      c.final_score = some (c.searchScore.getD 0
        + 1/2 * dobSimilarity (fuzzy_qdob q) c.doc.dob
        + 3/10 * mincodeSimilarity (fuzzy_qmincode q) (pyOr c.doc.mincode "")
        + 1/5 * postalSimilarity (fuzzy_qpostal q) (pyOr c.doc.postalCode "")
        + 1/10 * sexSimilarity (fuzzy_qsex q) (pyUpper (pyOr c.doc.sexCode ""))) := by
  refine ⟨?_, ?_, ?_⟩
  · show ((rank_with_light_scoring (fuzzy_qdob q) (fuzzy_qmincode q)
      (fuzzy_qpostal q) (fuzzy_qsex q) cands).take 20).length ≤ 20
    rw [List.length_take]
    exact Nat.min_le_left _ _
  · have htrans : ∀ a b c : Candidate,
        (decide (b.final_score.getD 0 ≤ a.final_score.getD 0)) = true →
        (decide (c.final_score.getD 0 ≤ b.final_score.getD 0)) = true →
        (decide (c.final_score.getD 0 ≤ a.final_score.getD 0)) = true := by
      intro a b c h1 h2
      simp only [decide_eq_true_eq] at h1 h2 ⊢
      exact le_trans h2 h1
    have htotal : ∀ a b : Candidate,
        ((decide (b.final_score.getD 0 ≤ a.final_score.getD 0)) ||
         (decide (a.final_score.getD 0 ≤ b.final_score.getD 0))) = true := by
      intro a b
      rcases le_total (b.final_score.getD 0) (a.final_score.getD 0) with h | h <;>
        simp [h]
    have hs := List.sorted_mergeSort htrans htotal
      ((cands.map (scoreCandidate (fuzzy_qdob q) (fuzzy_qmincode q)
        (fuzzy_qpostal q) (fuzzy_qsex q))))
    have hs' : List.Pairwise (fun a b : Candidate =>
        b.final_score.getD 0 ≤ a.final_score.getD 0)
        (rank_with_light_scoring (fuzzy_qdob q) (fuzzy_qmincode q)
          (fuzzy_qpostal q) (fuzzy_qsex q) cands) := by
      unfold rank_with_light_scoring
      exact hs.imp (fun h => by simpa using h)
    exact hs'.sublist (List.take_sublist _ _)
  · intro c hc
    have h1 := List.mem_of_mem_take hc
    have h2 := List.mem_mergeSort.mp h1
    obtain ⟨o, ho, rfl⟩ := List.mem_map.mp h2
    rfl

/-- C5: every candidate set the fuzzy resolver returns is capped at 20,
sorted descending by `final_score`, and each candidate's `final_score` is
its vector score plus `0.5·dob + 0.3·mincode + 0.2·postal + 0.1·sex`
similarity against the query, per the §4.3 scorers. -/
theorem C5_weighted_reranking
    (vsearch : Option String → Nat → List Candidate)
    (embedFn : String → Option (List ℚ)) (q : Query) (r : FuzzyResult)
    (h : soft_fuzzy_search vsearch embedFn q = .ok r) :
    r.results.length ≤ 20 ∧
    List.Pairwise (fun a b : Candidate =>
      b.final_score.getD 0 ≤ a.final_score.getD 0) r.results ∧
    ∀ c ∈ r.results, c.final_score = some (c.searchScore.getD 0
      + 1/2 * dobSimilarity (fuzzy_qdob q) c.doc.dob
      + 3/10 * mincodeSimilarity (fuzzy_qmincode q) (pyOr c.doc.mincode "")
      + 1/5 * postalSimilarity (fuzzy_qpostal q) (pyOr c.doc.postalCode "")
      + 1/10 * sexSimilarity (fuzzy_qsex q) (pyUpper (pyOr c.doc.sexCode ""))) := by
  unfold soft_fuzzy_search at h
  cases hg : generate_embedding embedFn q with
  | none =>
    rw [hg] at h
    simp only [Except.ok.injEq] at h
    subst h
    simp
  | some emb =>
    rw [hg] at h
    cases hp : build_postal_fsa_range_filter (fuzzy_qpostal q) with
    | error e =>
      rw [hp] at h
      exact absurd h (by simp)
    | ok postExpr =>
      rw [hp] at h
      by_cases hc : (runCascade vsearch q postExpr).1.isEmpty = true
      · simp only [hc, if_true] at h
        simp only [Except.ok.injEq] at h
        subst h
        simp [emptyFuzzyResult]
      · have hc' : (runCascade vsearch q postExpr).1.isEmpty = false := by
          simpa using hc
        simp only [hc', Bool.false_eq_true, if_false] at h
        simp only [Except.ok.injEq] at h
        subst h
        exact rankedFuzzyResult_spec q _ _

/-- A query with no secondary fields (name only), so the fuzzy main
attempt runs with no filter. -/
def c5query : Query := { legalFirstName := some "ANNA", legalLastName := some "LO" }

/-- A vector-search stub returning one candidate for every attempt. -/
def c5vsearch : Option String → Nat → List Candidate := fun _ _ => [c4cand]

/-- C5 witness: `C5_weighted_reranking` applied at a concrete run whose
single returned candidate set is non-empty. -/
theorem C5_weighted_reranking_witness :
    (rankedFuzzyResult c5query ["NO filter (no dob/mincode/postal/sex)"]
      [c4cand]).results.length ≤ 20 ∧
    List.Pairwise (fun a b : Candidate =>
      b.final_score.getD 0 ≤ a.final_score.getD 0)
      (rankedFuzzyResult c5query ["NO filter (no dob/mincode/postal/sex)"]
        [c4cand]).results ∧
    ∀ c ∈ (rankedFuzzyResult c5query ["NO filter (no dob/mincode/postal/sex)"]
      [c4cand]).results,
      c.final_score = some (c.searchScore.getD 0
        + 1/2 * dobSimilarity (fuzzy_qdob c5query) c.doc.dob
        + 3/10 * mincodeSimilarity (fuzzy_qmincode c5query) (pyOr c.doc.mincode "")
        + 1/5 * postalSimilarity (fuzzy_qpostal c5query) (pyOr c.doc.postalCode "")
        + 1/10 * sexSimilarity (fuzzy_qsex c5query) (pyUpper (pyOr c.doc.sexCode ""))) :=
  C5_weighted_reranking c5vsearch c4embed c5query _ rfl

/-! ## C3: the arbitration terminal shortcuts -/

/-- A search-service stub returning a fixed candidate list. -/
def stubSearch (cs : List Candidate) : Query → Except String SearchResult :=
  fun _ => .ok { pen_status := "CM", search_type := "fuzzy_match",
                 results := cs, count := cs.length }

/-- An assistant stub that is never supposed to be reached. -/
def stubLLMFail : List SlimCand → Except String CandidateAnalysis :=
  fun _ => .error "unused"

/-- A candidate carrying a ranking sub-score outside the allow-list. -/
def c3cand1 : Candidate := { doc := c1record, dob_sim := some (7/10) }

/-- The same candidate without the sub-score. -/
def c3cand2 : Candidate := { doc := c1record }

/-- C3 counterexample: the single-candidate CONFIRM branch does not echo
the full candidate — it echoes `slim_candidate(c)`, which keeps only the
allow-listed fields.  Two distinct candidates (differing in the
`dob_sim` ranking field) produce identical `chosen_candidate` payloads,
so `chosen_candidate` cannot be the full candidate. -/
theorem C3_counterexample_slim_echo :
    c3cand1 ≠ c3cand2 ∧
    (run_graph (stubSearch [c3cand1]) stubLLMFail {}).analysis =
      (run_graph (stubSearch [c3cand2]) stubLLMFail {}).analysis ∧
    (run_graph (stubSearch [c3cand1]) stubLLMFail {}).final_decision =
      some .CONFIRM :=
  ⟨by decide, rfl, rfl⟩

/-- C3 (amended): an empty fetched candidate set terminates with
NO_MATCH, a suspected-input-issue annotation and no assistant call; a
single-candidate set terminates with CONFIRM, confidence 1.0 and the
candidate reduced to the allow-listed fields echoed as
`chosen_candidate`, again with no assistant call; only sets of two or
more candidates transition to the analyze step. -/
theorem C3_router_terminal_shortcuts
    (searchFn : Query → Except String SearchResult)
    (llm llm2 : List SlimCand → Except String CandidateAnalysis) (q : Query) :
    ((fetch_candidates_node searchFn { request := q }).candidates = [] →
      (run_graph searchFn llm q).final_decision = some .NO_MATCH ∧
      (run_graph searchFn llm q).llm_used = some false ∧
      (run_graph searchFn llm q).confidence = some 0 ∧
      (run_graph searchFn llm q).analysis = some (.legacy
        { decision := .NO_MATCH, confidence := 0,
          reasons := ["No candidates found in search"],
          chosen_candidate := none, mismatches := [], ranked_candidates := [],
          suspected_input_issues :=
            [{ field := "unknown", issue := .missing,
               hint := "No candidates returned; check core identifiers (name, DOB, pen)." }] }) ∧
      run_graph searchFn llm q = run_graph searchFn llm2 q) ∧
    (∀ c, (fetch_candidates_node searchFn { request := q }).candidates = [c] →
      (run_graph searchFn llm q).final_decision = some .CONFIRM ∧
      (run_graph searchFn llm q).confidence = some 1 ∧
      (run_graph searchFn llm q).selected_candidate = c.doc.student_id ∧
      (run_graph searchFn llm q).llm_used = some false ∧
      (run_graph searchFn llm q).analysis = some (.legacy
        { decision := .CONFIRM, confidence := 1,
          reasons := ["Single candidate returned from search"],
          chosen_candidate := some (slim_candidate c), mismatches := [],
          ranked_candidates := [], suspected_input_issues := [] }) ∧
      run_graph searchFn llm q = run_graph searchFn llm2 q) ∧
    (∀ c1 c2 t,
      (fetch_candidates_node searchFn { request := q }).candidates = c1 :: c2 :: t →
      (decision_router_node (fetch_candidates_node searchFn { request := q })).route =
        some "llm_analyze" ∧
      run_graph searchFn llm q =
        llm_analyze_node llm
          (decision_router_node (fetch_candidates_node searchFn { request := q }))) := by
  have hif : ((some "end" : Option String) == some "llm_analyze") = false := by
    decide
  refine ⟨?_, ?_, ?_⟩
  · intro h
    refine ⟨?_, ?_, ?_, ?_, ?_⟩ <;>
      simp only [run_graph, decision_router_node, h, hif, Bool.false_eq_true,
        if_false]
  · intro c h
    refine ⟨?_, ?_, ?_, ?_, ?_, ?_⟩ <;>
      simp only [run_graph, decision_router_node, h, hif, Bool.false_eq_true,
        if_false]
  · intro c1 c2 t h
    have hif2 : ((some "llm_analyze" : Option String) == some "llm_analyze") = true := by
      decide
    constructor
    · simp only [decision_router_node, h]
    · simp only [run_graph, decision_router_node, h, hif2, if_true]

/-- C3 witness: `C3_router_terminal_shortcuts` applied with a
single-candidate stub search service. -/
theorem C3_router_terminal_shortcuts_witness :
    (run_graph (stubSearch [c3cand2]) stubLLMFail {}).final_decision =
      some .CONFIRM ∧
    (run_graph (stubSearch [c3cand2]) stubLLMFail {}).confidence = some 1 ∧
    (run_graph (stubSearch [c3cand2]) stubLLMFail {}).llm_used = some false := by
  obtain ⟨h1, h2, h3, h4, h5, h6⟩ :=
    (C3_router_terminal_shortcuts (stubSearch [c3cand2]) stubLLMFail
      stubLLMFail {}).2.1 c3cand2 rfl
  exact ⟨h1, h2, h4⟩

/-! ## C6: fail-safe handling of assistant failures -/

/-- C6: when the decision assistant call fails (transport failure or a
schema-violating response, both surfacing as the caught exception), the
analyze node does not propagate the error: the run completes with
decision NO_MATCH, confidence 0.0 and a reasons list recording the
failure and its cause (`run_graph` is a total function; the caught
exception is recorded in the state instead of being re-raised). -/
theorem C6_assistant_failure_failsafe
    (searchFn : Query → Except String SearchResult)
    (llm : List SlimCand → Except String CandidateAnalysis) (q : Query)
    (e : String) (c1 c2 : Candidate) (t : List Candidate)
    (hfetch : (fetch_candidates_node searchFn { request := q }).candidates =
      c1 :: c2 :: t)
    (hllm : llm (((c1 :: c2 :: t).take 20).map slim_candidate) = .error e) :
    (run_graph searchFn llm q).final_decision = some .NO_MATCH ∧
    (run_graph searchFn llm q).confidence = some 0 ∧
    (run_graph searchFn llm q).error = some e ∧
    (run_graph searchFn llm q).route = some "end" ∧
    (run_graph searchFn llm q).analysis = some (.legacy
      { decision := .NO_MATCH, confidence := 0,
        reasons := ["LLM analysis failed: " ++ e],
        chosen_candidate := none, mismatches := [], ranked_candidates := [],
        suspected_input_issues :=
          [{ field := "unknown", issue := .conflict,
             hint := "LLM call failed; check model deployment/base_url/schema." }] }) := by
  have hif2 : ((some "llm_analyze" : Option String) == some "llm_analyze") = true := by
    decide
  refine ⟨?_, ?_, ?_, ?_, ?_⟩ <;>
    simp only [run_graph, decision_router_node, hfetch, hif2, if_true,
      llm_analyze_node, hllm]

/-- An always-failing assistant stub. -/
def c6llm : List SlimCand → Except String CandidateAnalysis :=
  fun _ => .error "boom"

/-- C6 witness: `C6_assistant_failure_failsafe` applied with two
candidates and the failing assistant stub. -/
theorem C6_assistant_failure_failsafe_witness :
    (run_graph (stubSearch [c3cand1, c3cand2]) c6llm {}).final_decision =
      some .NO_MATCH ∧
    (run_graph (stubSearch [c3cand1, c3cand2]) c6llm {}).confidence = some 0 ∧
    (run_graph (stubSearch [c3cand1, c3cand2]) c6llm {}).error = some "boom" := by
  obtain ⟨h1, h2, h3, h4, h5⟩ :=
    C6_assistant_failure_failsafe (stubSearch [c3cand1, c3cand2]) c6llm {}
      "boom" c3cand1 c3cand2 [] rfl rfl
  exact ⟨h1, h2, h3⟩

/-! ## C7: the review-candidate list bound -/

/-- The review-candidate list carried by a workflow analysis payload. -/
def analysisReviewCandidates : Option AnalysisPayload → List ReviewCandidate
  | some (.validated a) => a.review_candidates
  | _ => []

/-- A minimal review candidate with the given identifier. -/
def c7rcand (sid : String) : ReviewCandidate := { candidate := { student_id := sid } }

/-- A schema-valid assistant response with six review candidates, two of
them sharing an identifier — `CandidateAnalysis` imposes no length bound
and no uniqueness constraint. -/
def c7badAnalysis : CandidateAnalysis :=
  { decision := .REVIEW, confidence := 1/2,
    review_candidates := [c7rcand "A", c7rcand "A", c7rcand "B", c7rcand "C",
      c7rcand "D", c7rcand "E"] }

/-- An assistant stub returning the six-candidate response. -/
def c7llmBad : List SlimCand → Except String CandidateAnalysis :=
  fun _ => .ok c7badAnalysis

/-- C7 counterexample: nothing in the schema or in `llm_analyze_node`
enforces the five-candidate bound or identifier uniqueness — a
schema-valid assistant response with six review candidates (including a
duplicated identifier) flows into the returned analysis unchanged, so a
REVIEW run can violate both parts of the claim. -/
theorem C7_counterexample_unbounded_review :
    (run_graph (stubSearch [c3cand1, c3cand2]) c7llmBad {}).final_decision =
      some .REVIEW ∧
    (run_graph (stubSearch [c3cand1, c3cand2]) c7llmBad {}).analysis =
      some (.validated c7badAnalysis) ∧
    (analysisReviewCandidates
      (run_graph (stubSearch [c3cand1, c3cand2]) c7llmBad {}).analysis).length = 6 ∧
    ¬ (analysisReviewCandidates
      (run_graph (stubSearch [c3cand1, c3cand2]) c7llmBad {}).analysis).length ≤ 5 ∧
    ¬ ((analysisReviewCandidates
      (run_graph (stubSearch [c3cand1, c3cand2]) c7llmBad {}).analysis).map
        (fun x => x.candidate.student_id)).Nodup :=
  ⟨rfl, rfl, rfl, by decide, by decide⟩

/-- C7 (amended): a REVIEW ending carries in its analysis exactly the
assistant's returned review-candidate list, so the list has at most 5
entries with no duplicated identifier provided the assistant's response
satisfies those bounds (the code itself does not enforce them). -/
theorem C7_review_bound_conditional
    (searchFn : Query → Except String SearchResult)
    (llm : List SlimCand → Except String CandidateAnalysis) (q : Query)
    (r : CandidateAnalysis) (c1 c2 : Candidate) (t : List Candidate)
    (hfetch : (fetch_candidates_node searchFn { request := q }).candidates =
      c1 :: c2 :: t)
    (hllm : llm (((c1 :: c2 :: t).take 20).map slim_candidate) = .ok r) :
    (run_graph searchFn llm q).final_decision = some r.decision ∧
    (run_graph searchFn llm q).analysis = some (.validated r) ∧
    analysisReviewCandidates (run_graph searchFn llm q).analysis =
      r.review_candidates ∧
    (r.review_candidates.length ≤ 5 →
      (analysisReviewCandidates (run_graph searchFn llm q).analysis).length ≤ 5) ∧
    ((r.review_candidates.map (fun x => x.candidate.student_id)).Nodup →
      ((analysisReviewCandidates (run_graph searchFn llm q).analysis).map
        (fun x => x.candidate.student_id)).Nodup) := by
  have hif2 : ((some "llm_analyze" : Option String) == some "llm_analyze") = true := by
    decide
  have hpass : (run_graph searchFn llm q).analysis = some (.validated r) := by
    simp only [run_graph, decision_router_node, hfetch, hif2, if_true,
      llm_analyze_node, hllm]
  refine ⟨?_, hpass, ?_, ?_, ?_⟩
  · simp only [run_graph, decision_router_node, hfetch, hif2, if_true,
      llm_analyze_node, hllm]
  · rw [hpass]
    rfl
  · intro h5
    rw [hpass]
    exact h5
  · intro hd
    rw [hpass]
    exact hd

/-- A compliant assistant response: two distinct review candidates. -/
def c7goodAnalysis : CandidateAnalysis :=
  { decision := .REVIEW, confidence := 1/2,
    review_candidates := [c7rcand "A", c7rcand "B"] }

/-- An assistant stub returning the compliant response. -/
def c7llmGood : List SlimCand → Except String CandidateAnalysis :=
  fun _ => .ok c7goodAnalysis

/-- C7 witness: `C7_review_bound_conditional` applied with the compliant
two-candidate assistant stub. -/
theorem C7_review_bound_conditional_witness :
    (run_graph (stubSearch [c3cand1, c3cand2]) c7llmGood {}).final_decision =
      some .REVIEW ∧
    (analysisReviewCandidates
      (run_graph (stubSearch [c3cand1, c3cand2]) c7llmGood {}).analysis).length ≤ 5 ∧
    ((analysisReviewCandidates
      (run_graph (stubSearch [c3cand1, c3cand2]) c7llmGood {}).analysis).map
        (fun x => x.candidate.student_id)).Nodup := by
  obtain ⟨h1, h2, h3, h4, h5⟩ :=
    C7_review_bound_conditional (stubSearch [c3cand1, c3cand2]) c7llmGood {}
      c7goodAnalysis c3cand1 c3cand2 [] rfl rfl
  exact ⟨h1, h4 (by decide), h5 (by decide)⟩

end PenMatch
